import Mathlib

/-!
# Asynchronous orchestration patterns of `src/patterns.js` and `src/timers.js`

A shallow embedding of the retry executors (`ServiceAvecRetry.avecRetry`,
`retryAvecDelai`), the race helpers (`avecTimeout`, `ServicesConcurrents`) and the
periodic notification manager (`GestionnaireNotifications`).

Conventions of the embedding.

* An asynchronous operation is a state-passing function: one call consumes the
  closure state of the operation and yields either a value or a thrown `Error`,
  together with the next closure state.  Operations always settle.
* A JavaScript `Error` is reduced to its `message`.
* JavaScript numbers that the source only uses as counters, delays and clock readings
  are natural numbers; `Math.random()` is a rational number of `[0, 1)` and the sum
  `Date.now() + Math.random()` is the exact sum rounded to the nearest double, ties to
  even (`additionDouble`).
* Time is virtual: a promise is described by the instant at which it settles.  A
  timer armed with `setTimeout(f, ms)` fires `delaiMinuterie ms` later: Node replaces
  a delay below 1 ms or above 2147483647 ms by 1 ms.
-/

namespace AsyncCours

/-! ## Errors, outcomes, operations -/

/-- A thrown `Error` object, reduced to its `message` field, the only part of a
failure that the retry functions read. -/
structure Erreur where
  message : String
deriving DecidableEq, Repr

/-- How a promise ends: resolved with a value or rejected with an error. -/
inductive Issue (α : Type) where
  | resolue (valeur : α)
  | rejetee (erreur : Erreur)
deriving DecidableEq, Repr

/-- An asynchronous zero-argument callable with closure state `σ`: a call returns
the settled result (`ok` for a resolved promise, `error` for a rejected one) and the
closure state after the call. -/
abbrev Operation (σ α : Type) := σ → Except Erreur α × σ

/-- What a retry run does that can be observed from outside: a call of the operation,
a wait on `setTimeout` called with the delay `ms`, a `console.log` line. -/
inductive Evenement where
  | appel
  | attente (ms : Nat)
  | console (texte : String)
deriving DecidableEq, Repr

/-- A finished run of a retry executor: the outcome of the returned promise, the
closure state of the operation at the end and the events in order. -/
structure Execution (σ α : Type) where
  issue : Issue α
  etat : σ
  journal : List Evenement

/-- Number of invocations of the operation recorded in a journal. -/
def nombreAppels (journal : List Evenement) : Nat :=
  journal.count Evenement.appel

/-- Whether an event is a wait on a `setTimeout` promise. -/
def Evenement.estAttente : Evenement → Bool
  | .attente _ => true
  | _ => false

/-- Whether an event is a `console.log` line. -/
def Evenement.estConsole : Evenement → Bool
  | .console _ => true
  | _ => false

/-- Number of inter-attempt waits recorded in a journal. -/
def nombreAttentes (journal : List Evenement) : Nat :=
  journal.countP Evenement.estAttente

/-- A journal without its `console.log` lines: the calls and the waits, in order. -/
def sansConsole (journal : List Evenement) : List Evenement :=
  journal.filter (fun e => !e.estConsole)

/-- Closure state of an operation after `i` calls starting from `etat`. -/
def etatApres {σ α : Type} (operation : Operation σ α) (etat : σ) : Nat → σ
  | 0 => etat
  | i + 1 => etatApres operation (operation etat).2 i

/-- The message of the `TypeError` raised when reading `.message` of `undefined`. -/
def messageTypeError : String :=
  "Cannot read properties of undefined (reading 'message')"

/-- The error thrown by the last statement of both retry functions, whose message is
"Échec après ", `maxTentatives`, " tentatives: " and the message of the last error;
`derniereErreur` is `none` while the variable is `undefined`, and reading its
`message` then raises a `TypeError` instead. -/
def erreurFinale (maxTentatives : Nat) (derniereErreur : Option Erreur) : Erreur :=
  match derniereErreur with
  | some erreur =>
    { message :=
        "Échec après " ++ toString maxTentatives ++ " tentatives: " ++ erreur.message }
  | none => { message := messageTypeError }

/-! ## `src/patterns.js`: `ServiceAvecRetry` -/

/-- The instance state of `ServiceAvecRetry` (`this.tentatives`). -/
structure ServiceAvecRetry where
  tentatives : Nat
deriving DecidableEq, Repr

namespace ServiceAvecRetry

/-- The constructor: `this.tentatives = 0`. -/
def nouveau : ServiceAvecRetry := { tentatives := 0 }

/-- The method `reset`. -/
def reset (_self : ServiceAvecRetry) : ServiceAvecRetry := { tentatives := 0 }

/-- The method `operationInstable`: increments the counter, throws while the counter
is below 3 and returns the success message afterwards. -/
def operationInstable : Operation ServiceAvecRetry String := fun self =>
  let self : ServiceAvecRetry := { tentatives := self.tentatives + 1 }
  if self.tentatives < 3 then
    (.error { message := "Échec tentative " ++ toString self.tentatives }, self)
  else
    (.ok ("Succès après " ++ toString self.tentatives ++ " tentatives"), self)

/-- The `for` loop of `avecRetry` from the iteration `tentative` on, followed by the
final `throw`. -/
def boucle {σ α : Type} (operation : Operation σ α) (maxTentatives delaiMs : Nat)
    (tentative : Nat) (derniereErreur : Option Erreur) (etat : σ) : Execution σ α :=
  if tentative ≤ maxTentatives then
    match operation etat with
    | (.ok valeur, etat') =>
      { issue := .resolue valeur, etat := etat', journal := [.appel] }
    | (.error erreur, etat') =>
      let suite := boucle operation maxTentatives delaiMs (tentative + 1) (some erreur) etat'
      let ligne := Evenement.console
        ("Tentative " ++ toString tentative ++ " échouée: " ++ erreur.message)
      let pause := if tentative < maxTentatives then [Evenement.attente delaiMs] else []
      { suite with journal := .appel :: ligne :: (pause ++ suite.journal) }
  else
    { issue := .rejetee (erreurFinale maxTentatives derniereErreur), etat := etat,
      journal := [] }
termination_by maxTentatives + 1 - tentative
decreasing_by omega

/-- The method `avecRetry(operation, maxTentatives = 3, delaiMs = 50)`; an omitted
argument is `none`. -/
def avecRetry {σ α : Type} (operation : Operation σ α) (maxTentatives : Option Nat)
    (delaiMs : Option Nat) (etat : σ) : Execution σ α :=
  boucle operation (maxTentatives.getD 3) (delaiMs.getD 50) 1 none etat

end ServiceAvecRetry

/-! ## `src/timers.js`: `retryAvecDelai` -/

/-- The `for` loop of `retryAvecDelai` from the iteration `tentative` on, followed by
the final `throw`. -/
def retryAvecDelai.boucle {σ α : Type} (fn : Operation σ α) (maxTentatives delai : Nat)
    (tentative : Nat) (dernierError : Option Erreur) (etat : σ) : Execution σ α :=
  if tentative ≤ maxTentatives then
    match fn etat with
    | (.ok valeur, etat') =>
      { issue := .resolue valeur, etat := etat', journal := [.appel] }
    | (.error error, etat') =>
      let suite := retryAvecDelai.boucle fn maxTentatives delai (tentative + 1) (some error) etat'
      let pause := if tentative < maxTentatives then [Evenement.attente delai] else []
      { suite with journal := .appel :: (pause ++ suite.journal) }
  else
    { issue := .rejetee (erreurFinale maxTentatives dernierError), etat := etat,
      journal := [] }
termination_by maxTentatives + 1 - tentative
decreasing_by omega

/-- The function `retryAvecDelai(fn, maxTentatives = 3, delai = 1000)`; an omitted
argument is `none`. -/
def retryAvecDelai {σ α : Type} (fn : Operation σ α) (maxTentatives : Option Nat)
    (delai : Option Nat) (etat : σ) : Execution σ α :=
  retryAvecDelai.boucle fn (maxTentatives.getD 3) (delai.getD 1000) 1 none etat

/-! ## `src/testUtils.js`: `creerFonctionInstable` -/

/-- The closure returned by `TestUtils.creerFonctionInstable(nombreEchecs,
messageSucces)`; its state is the captured counter `tentatives`, initially 0. -/
def creerFonctionInstable (nombreEchecs : Nat) (messageSucces : String) :
    Operation Nat String := fun tentatives =>
  let tentatives := tentatives + 1
  if tentatives ≤ nombreEchecs then
    (.error { message :=
      "Échec " ++ toString tentatives ++ "/" ++ toString nombreEchecs }, tentatives)
  else
    (.ok messageSucces, tentatives)

/-! ## `src/timers.js`: `GestionnaireNotifications` -/

/-- A value returned by `Math.random()`: a number of `[0, 1)`. -/
structure Alea where
  valeur : ℚ
  positif : 0 ≤ valeur
  inferieurAUn : valeur < 1

/-- Rounding of a number to the nearest integer, a tie going to the even integer. -/
def arrondiPair (y : ℚ) : Int :=
  if y - ⌊y⌋ < 1 / 2 then ⌊y⌋
  else if 1 / 2 < y - ⌊y⌋ then ⌊y⌋ + 1
  else if ⌊y⌋ % 2 = 0 then ⌊y⌋
  else ⌊y⌋ + 1

/-- The spacing of the doubles between `2 ^ e` and `2 ^ (e + 1)`, where `e` is the
binary logarithm of `t` rounded down: `2 ^ (e - 52)`.  For a clock reading of today,
between `2 ^ 40` and `2 ^ 41` ms, it is `2 ^ (-12)` ms. -/
def pasDouble (t : Nat) : ℚ := 2 ^ Nat.log 2 t / 2 ^ 52

/-- The sum `t + r` of the doubles `t`, a clock reading, and `r`, a draw of `[0, 1)`,
as the `+` of JavaScript computes it: the exact sum rounded to the nearest double, a
tie going to the double with an even significand.  The exact sum lies between `t` and
`t + 1`, where the doubles are the multiples of `pasDouble t`; with `t = 0` the sum is
`r` itself. -/
def additionDouble (t : Nat) (r : ℚ) : ℚ :=
  if t = 0 then r else (arrondiPair (((t : ℚ) + r) / pasDouble t) : ℚ) * pasDouble t

/-- A record of the notification store: `{ id, message, timestamp }`. -/
structure Notification where
  id : ℚ
  message : String
  timestamp : Nat
deriving DecidableEq

/-- What one iteration of the loop of `verifierNotifications` reads from its
environment, in evaluation order: `Date.now()` and `Math.random()` for `id`, then
`Date.now()` for `timestamp`. -/
structure Tirage where
  horlogeId : Nat
  alea : Alea
  horlogeTimestamp : Nat

/-- The callbacks that `demarrer` hands to `setInterval`. -/
inductive Tache where
  | verifierNotifications
  | nettoyerNotifications
deriving DecidableEq, Repr

/-- A periodic timer of the runtime: its handle, its callback and its period. -/
structure Minuterie where
  poignee : Nat
  tache : Tache
  periode : Nat
deriving DecidableEq, Repr

/-- The timer table of the runtime: the next fresh handle and the live periodic
timers. -/
structure Minuteries where
  prochaine : Nat
  actives : List Minuterie
deriving DecidableEq, Repr

/-- The runtime call `setInterval(tache, periode)`: registers a timer and returns its
handle. -/
def setInterval (tache : Tache) (periode : Nat) (m : Minuteries) : Nat × Minuteries :=
  (m.prochaine,
   { prochaine := m.prochaine + 1,
     actives := m.actives ++ [{ poignee := m.prochaine, tache := tache, periode := periode }] })

/-- The runtime call `clearInterval(poignee)`: the timer with that handle, if any, is
no longer live. -/
def clearInterval (poignee : Nat) (m : Minuteries) : Minuteries :=
  { m with actives := m.actives.filter (fun t => t.poignee != poignee) }

/-- A `Map` from strings to timer handles, as its entries in insertion order. -/
abbrev JsMap := List (String × Nat)

/-- The call `Map.prototype.set`: replaces the value of an existing key in place,
appends a new key. -/
def JsMap.set (m : JsMap) (cle : String) (valeur : Nat) : JsMap :=
  if m.any (fun p => p.1 == cle) then
    m.map (fun p => if p.1 == cle then (cle, valeur) else p)
  else
    m ++ [(cle, valeur)]

/-- The instance state of `GestionnaireNotifications`. -/
structure GestionnaireNotifications where
  notifications : List Notification
  intervalles : JsMap
  actif : Bool
deriving DecidableEq

/-- The retention window of `nettoyerNotifications`: `60 * 60 * 1000` ms. -/
def uneHeure : Int := 60 * 60 * 1000

namespace GestionnaireNotifications

/-- The constructor. -/
def nouveau : GestionnaireNotifications :=
  { notifications := [], intervalles := [], actif := false }

/-- The `for` loop of `verifierNotifications` from the iteration `i` on, acting on
the array `notifications`. -/
def verifierNotifications.boucle (nombreNouvelles : Nat) (tirages : Nat → Tirage)
    (i : Nat) (notifications : List Notification) : List Notification :=
  if i < nombreNouvelles then
    verifierNotifications.boucle nombreNouvelles tirages (i + 1)
      (notifications ++
        [{ id := additionDouble (tirages i).horlogeId (tirages i).alea.valeur,
           message := "Notification " ++ toString (notifications.length + i + 1),
           timestamp := (tirages i).horlogeTimestamp }])
  else
    notifications
termination_by nombreNouvelles - i
decreasing_by omega

/-- The method `verifierNotifications`; `aleaNombre` is the value of `Math.random()`
in `nombreNouvelles` and `tirages i` is what iteration `i` reads. -/
def verifierNotifications (aleaNombre : Alea) (tirages : Nat → Tirage)
    (self : GestionnaireNotifications) : GestionnaireNotifications :=
  if !self.actif then self
  else
    let nombreNouvelles := ⌊aleaNombre.valeur * 3⌋₊
    { self with notifications :=
        verifierNotifications.boucle nombreNouvelles tirages 0 self.notifications }

/-- The method `nettoyerNotifications`; `maintenant` is the value of `Date.now()`. -/
def nettoyerNotifications (maintenant : Nat) (self : GestionnaireNotifications) :
    GestionnaireNotifications :=
  { self with
    notifications := self.notifications.filter fun notif =>
      decide ((maintenant : Int) - (notif.timestamp : Int) < uneHeure) }

/-- The method `obtenirNotifications`: a copy of the store. -/
def obtenirNotifications (self : GestionnaireNotifications) : List Notification :=
  self.notifications

end GestionnaireNotifications

/-- A manager together with the timer table of the runtime it runs in. -/
structure Systeme where
  gestionnaire : GestionnaireNotifications
  minuteries : Minuteries

namespace Systeme

/-- A freshly constructed manager in a runtime without live timers. -/
def initial : Systeme :=
  { gestionnaire := GestionnaireNotifications.nouveau,
    minuteries := { prochaine := 0, actives := [] } }

/-- The method `demarrer`; `aleaNombre` and `tirages` are read by its immediate
`verifierNotifications` pass. -/
def demarrer (aleaNombre : Alea) (tirages : Nat → Tirage) (s : Systeme) : Systeme :=
  if s.gestionnaire.actif then s
  else
    let g := { s.gestionnaire with actif := true }
    let g := g.verifierNotifications aleaNombre tirages
    let rapide := setInterval Tache.verifierNotifications 30000 s.minuteries
    let lent := setInterval Tache.nettoyerNotifications 300000 rapide.2
    { gestionnaire :=
        { g with intervalles := (g.intervalles.set "rapide" rapide.1).set "lent" lent.1 },
      minuteries := lent.2 }

/-- The method `arreter`. -/
def arreter (s : Systeme) : Systeme :=
  { gestionnaire := { s.gestionnaire with actif := false, intervalles := [] },
    minuteries :=
      s.gestionnaire.intervalles.foldl (fun m p => clearInterval p.2 m) s.minuteries }

/-- The method `verifierNotifications`, which leaves the runtime untouched. -/
def verifierNotifications (aleaNombre : Alea) (tirages : Nat → Tirage) (s : Systeme) :
    Systeme :=
  { s with gestionnaire := s.gestionnaire.verifierNotifications aleaNombre tirages }

/-- The method `nettoyerNotifications`, which leaves the runtime untouched. -/
def nettoyerNotifications (maintenant : Nat) (s : Systeme) : Systeme :=
  { s with gestionnaire := s.gestionnaire.nettoyerNotifications maintenant }

end Systeme

/-- A call on a `GestionnaireNotifications`, with what the call reads from the clock
and from `Math.random()`. -/
inductive Action where
  | demarrer (aleaNombre : Alea) (tirages : Nat → Tirage)
  | arreter
  | verifierNotifications (aleaNombre : Alea) (tirages : Nat → Tirage)
  | nettoyerNotifications (maintenant : Nat)

/-- The effect of one call. -/
def Action.executer : Action → Systeme → Systeme
  | .demarrer aleaNombre tirages, s => s.demarrer aleaNombre tirages
  | .arreter, s => s.arreter
  | .verifierNotifications aleaNombre tirages, s => s.verifierNotifications aleaNombre tirages
  | .nettoyerNotifications maintenant, s => s.nettoyerNotifications maintenant

/-- The state after a sequence of calls, the first call of the list first. -/
def Systeme.executerTout (actions : List Action) (s : Systeme) : Systeme :=
  actions.foldl (fun s a => a.executer s) s

/-- The state after a sequence of calls on a freshly constructed manager. -/
def Systeme.apres (actions : List Action) : Systeme :=
  Systeme.executerTout actions Systeme.initial

/-! ## Promises in virtual time, `Promise.race` -/

/-- The largest delay that a timer of Node accepts, `TIMEOUT_MAX = 2 ** 31 - 1` ms. -/
def TIMEOUT_MAX : Nat := 2147483647

/-- The delay after which a timer armed by `setTimeout(f, ms)` fires: `ms` itself when
`1 ≤ ms ≤ TIMEOUT_MAX`, and 1 ms otherwise, as Node sets a delay below 1 or above
`TIMEOUT_MAX` to 1. -/
def delaiMinuterie (ms : Nat) : Nat :=
  if 1 ≤ ms ∧ ms ≤ TIMEOUT_MAX then ms else 1

/-- A promise seen from the instant of the call that observes it: it never settles,
or it settles `instant` ms later with an outcome. -/
inductive Promesse (α : Type) where
  | enAttente
  | reglee (instant : Nat) (issue : Issue α)
deriving DecidableEq, Repr

namespace Promesse

/-- The promise `new Promise(resolve => setTimeout(resolve, ms))`. -/
def delai (ms : Nat) : Promesse Unit := .reglee (delaiMinuterie ms) (.resolue ())

/-- The rest of an `async` body after `await p`: it runs when `p` resolves and a
rejection of `p` propagates. -/
def puis {α β : Type} (p : Promesse α) (suite : α → Issue β) : Promesse β :=
  match p with
  | .enAttente => .enAttente
  | .reglee instant (.resolue v) => .reglee instant (suite v)
  | .reglee instant (.rejetee e) => .reglee instant (.rejetee e)

/-- The promise `new Promise((_, reject) => setTimeout(() => reject(new Error(message)), ms))`. -/
def rejetApres {α : Type} (ms : Nat) (message : String) : Promesse α :=
  .reglee (delaiMinuterie ms) (.rejetee { message := message })

/-- Which of two promises is observed to settle first: the earlier one, and the first
of the two when both settle at the same instant. -/
def premiere {α : Type} (p q : Promesse α) : Promesse α :=
  match p, q with
  | .enAttente, q => q
  | .reglee instant issue, .enAttente => .reglee instant issue
  | .reglee instant issue, .reglee instant' issue' =>
    if instant ≤ instant' then .reglee instant issue else .reglee instant' issue'

/-- The call `Promise.race`: settles as the participant that settles first; of two
participants settling at the same instant the one listed first is observed first.
The race of no participant never settles. -/
def race {α : Type} : List (Promesse α) → Promesse α
  | [] => .enAttente
  | p :: reste => premiere p (race reste)

end Promesse

/-- The function `avecTimeout(promise, timeout)` of `src/timers.js`. -/
def avecTimeout {α : Type} (promise : Promesse α) (timeout : Nat) : Promesse α :=
  Promesse.race [promise, Promesse.rejetApres timeout "Timeout dépassé"]

/-! ## `src/patterns.js`: `ServicesConcurrents` -/

namespace ServicesConcurrents

/-- The method `serviceLent(donnees)`. -/
def serviceLent (donnees : String) : Promesse String :=
  (Promesse.delai 1000).puis (fun _ => .resolue ("Service lent: " ++ donnees))

/-- The method `serviceRapide(donnees)`. -/
def serviceRapide (donnees : String) : Promesse String :=
  (Promesse.delai 200).puis (fun _ => .resolue ("Service rapide: " ++ donnees))

/-- The method `serviceAvecTimeout(donnees, timeoutMs = 500)`; an omitted `timeoutMs`
is `none`. -/
def serviceAvecTimeout (donnees : String) (timeoutMs : Option Nat) : Promesse String :=
  let promisePrincipale := serviceLent donnees
  let promiseTimeout : Promesse String :=
    Promesse.rejetApres (timeoutMs.getD 500) "Timeout dépassé"
  Promesse.race [promisePrincipale, promiseTimeout]

/-- The method `meilleurService(donnees)`. -/
def meilleurService (donnees : String) : Promesse String :=
  Promesse.race [serviceLent donnees, serviceRapide donnees]

end ServicesConcurrents

/-! ## Notions used to state the properties of the manager -/

/-- The ids of the records of a store, in order. -/
def identifiants (notifications : List Notification) : List ℚ :=
  notifications.map (fun n => n.id)

/-- The operands `(Date.now(), Math.random())` of the ids that one generation pass
computes, one pair for each of the iterations `0, ..., nombreNouvelles - 1`. -/
def operandesDUnePasse (aleaNombre : Alea) (tirages : Nat → Tirage) : List (Nat × ℚ) :=
  (List.range ⌊aleaNombre.valeur * 3⌋₊).map
    (fun i => ((tirages i).horlogeId, (tirages i).alea.valeur))

/-- The ids that one generation pass computes. -/
def idsDUnePasse (aleaNombre : Alea) (tirages : Nat → Tirage) : List ℚ :=
  (operandesDUnePasse aleaNombre tirages).map (fun p => additionDouble p.1 p.2)

/-- The operands of the ids that a call computes in the state `s`: those of its
generation pass when the call runs one, none otherwise. -/
def Action.operandes : Action → Systeme → List (Nat × ℚ)
  | .demarrer aleaNombre tirages, s =>
    if s.gestionnaire.actif then [] else operandesDUnePasse aleaNombre tirages
  | .verifierNotifications aleaNombre tirages, s =>
    if s.gestionnaire.actif then operandesDUnePasse aleaNombre tirages else []
  | .arreter, _ => []
  | .nettoyerNotifications _, _ => []

/-- The ids that a call computes in the state `s`. -/
def Action.idsCalcules (a : Action) (s : Systeme) : List ℚ :=
  (a.operandes s).map (fun p => additionDouble p.1 p.2)

/-- The operands of all the ids computed along a sequence of calls started in `s`, in
the order of their computation. -/
def operandesDesIds : List Action → Systeme → List (Nat × ℚ)
  | [], _ => []
  | a :: reste, s => a.operandes s ++ operandesDesIds reste (a.executer s)

/-- Two pairs of operands `(Date.now(), Math.random())` whose exact sums differ by
more than the spacing of the doubles around either clock reading. -/
def SommesEcartees (p q : Nat × ℚ) : Prop :=
  max (pasDouble p.1) (pasDouble q.1) < |((p.1 : ℚ) + p.2) - ((q.1 : ℚ) + q.2)|

/-- The draw `0.5`. -/
def aleaDemi : Alea := { valeur := 1 / 2, positif := by norm_num, inferieurAUn := by norm_num }

/-- The draw `2/3`, for which `Math.floor(Math.random() * 3)` is 2. -/
def aleaDeuxTiers : Alea :=
  { valeur := 2 / 3, positif := by norm_num, inferieurAUn := by norm_num }

/-- Readings in which the clock shows 1000 and `Math.random()` returns 0.5 at every
iteration. -/
def tiragesConstants : Nat → Tirage :=
  fun _ => { horlogeId := 1000, alea := aleaDemi, horlogeTimestamp := 1000 }

/-- The draw `0.25`. -/
def aleaQuart : Alea :=
  { valeur := 1 / 4, positif := by norm_num, inferieurAUn := by norm_num }

/-- The draw `0.75`. -/
def aleaTroisQuarts : Alea :=
  { valeur := 3 / 4, positif := by norm_num, inferieurAUn := by norm_num }

/-- Readings in which the clock shows 1000 at every iteration and `Math.random()`
returns 0.25 at iteration 0 and 0.75 afterwards. -/
def tiragesMemeInstant : Nat → Tirage :=
  fun i =>
    { horlogeId := 1000, alea := if i = 0 then aleaQuart else aleaTroisQuarts,
      horlogeTimestamp := 1000 }

/-- Readings in which the clock shows `1000 + i` at iteration `i` and `Math.random()`
returns 0.5. -/
def tiragesCroissants : Nat → Tirage :=
  fun i => { horlogeId := 1000 + i, alea := aleaDemi, horlogeTimestamp := 1000 + i }

/-! ## Lemmas on the retry loops -/

theorem avecRetry_boucle_fin {σ α : Type} (operation : Operation σ α)
    (maxTentatives delaiMs tentative : Nat) (derniereErreur : Option Erreur) (etat : σ)
    (h : ¬ tentative ≤ maxTentatives) :
    ServiceAvecRetry.boucle operation maxTentatives delaiMs tentative derniereErreur etat
      = { issue := .rejetee (erreurFinale maxTentatives derniereErreur), etat := etat,
          journal := [] } := by
  rw [ServiceAvecRetry.boucle.eq_def, if_neg h]

theorem avecRetry_boucle_succes {σ α : Type} (operation : Operation σ α)
    (maxTentatives delaiMs tentative : Nat) (derniereErreur : Option Erreur) (etat etat' : σ)
    (valeur : α) (h : tentative ≤ maxTentatives) (hop : operation etat = (.ok valeur, etat')) :
    ServiceAvecRetry.boucle operation maxTentatives delaiMs tentative derniereErreur etat
      = { issue := .resolue valeur, etat := etat', journal := [.appel] } := by
  conv_lhs => rw [ServiceAvecRetry.boucle.eq_def, if_pos h, hop]

theorem avecRetry_boucle_echec {σ α : Type} (operation : Operation σ α)
    (maxTentatives delaiMs tentative : Nat) (derniereErreur : Option Erreur) (etat etat' : σ)
    (erreur : Erreur) (h : tentative ≤ maxTentatives)
    (hop : operation etat = (.error erreur, etat')) :
    ServiceAvecRetry.boucle operation maxTentatives delaiMs tentative derniereErreur etat
      = { ServiceAvecRetry.boucle operation maxTentatives delaiMs (tentative + 1) (some erreur)
            etat' with
          journal := .appel ::
            .console ("Tentative " ++ toString tentative ++ " échouée: " ++ erreur.message) ::
            ((if tentative < maxTentatives then [Evenement.attente delaiMs] else []) ++
              (ServiceAvecRetry.boucle operation maxTentatives delaiMs (tentative + 1)
                (some erreur) etat').journal) } := by
  conv_lhs => rw [ServiceAvecRetry.boucle.eq_def, if_pos h, hop]

theorem retryAvecDelai_boucle_fin {σ α : Type} (fn : Operation σ α)
    (maxTentatives delai tentative : Nat) (dernierError : Option Erreur) (etat : σ)
    (h : ¬ tentative ≤ maxTentatives) :
    retryAvecDelai.boucle fn maxTentatives delai tentative dernierError etat
      = { issue := .rejetee (erreurFinale maxTentatives dernierError), etat := etat,
          journal := [] } := by
  rw [retryAvecDelai.boucle.eq_def, if_neg h]

theorem retryAvecDelai_boucle_succes {σ α : Type} (fn : Operation σ α)
    (maxTentatives delai tentative : Nat) (dernierError : Option Erreur) (etat etat' : σ)
    (valeur : α) (h : tentative ≤ maxTentatives) (hop : fn etat = (.ok valeur, etat')) :
    retryAvecDelai.boucle fn maxTentatives delai tentative dernierError etat
      = { issue := .resolue valeur, etat := etat', journal := [.appel] } := by
  conv_lhs => rw [retryAvecDelai.boucle.eq_def, if_pos h, hop]

theorem retryAvecDelai_boucle_echec {σ α : Type} (fn : Operation σ α)
    (maxTentatives delai tentative : Nat) (dernierError : Option Erreur) (etat etat' : σ)
    (error : Erreur) (h : tentative ≤ maxTentatives) (hop : fn etat = (.error error, etat')) :
    retryAvecDelai.boucle fn maxTentatives delai tentative dernierError etat
      = { retryAvecDelai.boucle fn maxTentatives delai (tentative + 1) (some error) etat' with
          journal := .appel ::
            ((if tentative < maxTentatives then [Evenement.attente delai] else []) ++
              (retryAvecDelai.boucle fn maxTentatives delai (tentative + 1) (some error)
                etat').journal) } := by
  conv_lhs => rw [retryAvecDelai.boucle.eq_def, if_pos h, hop]

/-- A pair is determined by its components. -/
theorem paire_de_premiere {α β : Type} (p : α × β) (a : α) (h : p.1 = a) : p = (a, p.2) := by
  cases p; simp_all

/-! ### Counting events -/

@[simp] theorem nombreAppels_nil : nombreAppels [] = 0 := rfl

@[simp] theorem nombreAppels_appel (j : List Evenement) :
    nombreAppels (.appel :: j) = nombreAppels j + 1 := by
  simp [nombreAppels]

@[simp] theorem nombreAppels_attente (ms : Nat) (j : List Evenement) :
    nombreAppels (.attente ms :: j) = nombreAppels j := by
  simp [nombreAppels]

@[simp] theorem nombreAppels_console (t : String) (j : List Evenement) :
    nombreAppels (.console t :: j) = nombreAppels j := by
  simp [nombreAppels]

@[simp] theorem nombreAttentes_nil : nombreAttentes [] = 0 := rfl

@[simp] theorem nombreAttentes_appel (j : List Evenement) :
    nombreAttentes (.appel :: j) = nombreAttentes j := by
  simp [nombreAttentes, Evenement.estAttente]

@[simp] theorem nombreAttentes_attente (ms : Nat) (j : List Evenement) :
    nombreAttentes (.attente ms :: j) = nombreAttentes j + 1 := by
  simp [nombreAttentes, Evenement.estAttente]

@[simp] theorem nombreAttentes_console (t : String) (j : List Evenement) :
    nombreAttentes (.console t :: j) = nombreAttentes j := by
  simp [nombreAttentes, Evenement.estAttente]

@[simp] theorem sansConsole_nil : sansConsole [] = [] := rfl

@[simp] theorem sansConsole_appel (j : List Evenement) :
    sansConsole (.appel :: j) = .appel :: sansConsole j := by
  simp [sansConsole, Evenement.estConsole]

@[simp] theorem sansConsole_attente (ms : Nat) (j : List Evenement) :
    sansConsole (.attente ms :: j) = .attente ms :: sansConsole j := by
  simp [sansConsole, Evenement.estConsole]

@[simp] theorem sansConsole_console (t : String) (j : List Evenement) :
    sansConsole (.console t :: j) = sansConsole j := by
  simp [sansConsole, Evenement.estConsole]

/-! ### An operation that fails `k` times and then succeeds -/

theorem avecRetry_boucle_succes_apres {σ α : Type} (operation : Operation σ α)
    (maxTentatives delaiMs : Nat) (v : α) :
    ∀ (k tentative : Nat) (derniereErreur : Option Erreur) (etat : σ),
      tentative + k ≤ maxTentatives →
      (∀ i, i < k → ∃ e, (operation (etatApres operation etat i)).1 = .error e) →
      (operation (etatApres operation etat k)).1 = .ok v →
      (ServiceAvecRetry.boucle operation maxTentatives delaiMs tentative derniereErreur
          etat).issue = .resolue v ∧
        nombreAppels (ServiceAvecRetry.boucle operation maxTentatives delaiMs tentative
          derniereErreur etat).journal = k + 1 ∧
        nombreAttentes (ServiceAvecRetry.boucle operation maxTentatives delaiMs tentative
          derniereErreur etat).journal = k ∧
        (ServiceAvecRetry.boucle operation maxTentatives delaiMs tentative derniereErreur
          etat).etat = etatApres operation etat (k + 1) := by
  intro k
  induction k with
  | zero =>
    intro tentative derniereErreur etat hle _ hok
    have hop := paire_de_premiere (operation etat) (.ok v) hok
    rw [avecRetry_boucle_succes operation maxTentatives delaiMs tentative derniereErreur
      etat _ v (by omega) hop]
    simp [etatApres]
  | succ k ih =>
    intro tentative derniereErreur etat hle hechecs hok
    obtain ⟨e, he⟩ := hechecs 0 (by omega)
    have hop := paire_de_premiere (operation etat) (.error e) he
    have hsuite := ih (tentative + 1) (some e) (operation etat).2 (by omega)
      (fun i hi => hechecs (i + 1) (by omega)) hok
    rw [avecRetry_boucle_echec operation maxTentatives delaiMs tentative derniereErreur
      etat _ e (by omega) hop]
    have hlt : tentative < maxTentatives := by omega
    obtain ⟨h1, h2, h3, h4⟩ := hsuite
    refine ⟨h1, ?_, ?_, ?_⟩
    · simp [hlt, h2]
    · simp [hlt, h3]
    · rw [h4]; rfl

theorem retryAvecDelai_boucle_succes_apres {σ α : Type} (fn : Operation σ α)
    (maxTentatives delai : Nat) (v : α) :
    ∀ (k tentative : Nat) (dernierError : Option Erreur) (etat : σ),
      tentative + k ≤ maxTentatives →
      (∀ i, i < k → ∃ e, (fn (etatApres fn etat i)).1 = .error e) →
      (fn (etatApres fn etat k)).1 = .ok v →
      (retryAvecDelai.boucle fn maxTentatives delai tentative dernierError etat).issue
          = .resolue v ∧
        nombreAppels (retryAvecDelai.boucle fn maxTentatives delai tentative dernierError
          etat).journal = k + 1 ∧
        nombreAttentes (retryAvecDelai.boucle fn maxTentatives delai tentative dernierError
          etat).journal = k ∧
        (retryAvecDelai.boucle fn maxTentatives delai tentative dernierError etat).etat
          = etatApres fn etat (k + 1) := by
  intro k
  induction k with
  | zero =>
    intro tentative dernierError etat hle _ hok
    have hop := paire_de_premiere (fn etat) (.ok v) hok
    rw [retryAvecDelai_boucle_succes fn maxTentatives delai tentative dernierError
      etat _ v (by omega) hop]
    simp [etatApres]
  | succ k ih =>
    intro tentative dernierError etat hle hechecs hok
    obtain ⟨e, he⟩ := hechecs 0 (by omega)
    have hop := paire_de_premiere (fn etat) (.error e) he
    have hsuite := ih (tentative + 1) (some e) (fn etat).2 (by omega)
      (fun i hi => hechecs (i + 1) (by omega)) hok
    rw [retryAvecDelai_boucle_echec fn maxTentatives delai tentative dernierError
      etat _ e (by omega) hop]
    have hlt : tentative < maxTentatives := by omega
    obtain ⟨h1, h2, h3, h4⟩ := hsuite
    refine ⟨h1, ?_, ?_, ?_⟩
    · simp [hlt, h2]
    · simp [hlt, h3]
    · rw [h4]; rfl

/-! ### An operation that fails on every call of the budget -/

theorem avecRetry_boucle_echecs {σ α : Type} (operation : Operation σ α)
    (maxTentatives delaiMs : Nat) :
    ∀ (j tentative : Nat) (derniereErreur : Option Erreur) (etat : σ) (erreurs : Nat → Erreur),
      tentative + j = maxTentatives + 1 →
      (∀ i, i < j → (operation (etatApres operation etat i)).1 = .error (erreurs i)) →
      (ServiceAvecRetry.boucle operation maxTentatives delaiMs tentative derniereErreur
          etat).issue
          = .rejetee (erreurFinale maxTentatives
              (if j = 0 then derniereErreur else some (erreurs (j - 1)))) ∧
        nombreAppels (ServiceAvecRetry.boucle operation maxTentatives delaiMs tentative
          derniereErreur etat).journal = j ∧
        (ServiceAvecRetry.boucle operation maxTentatives delaiMs tentative derniereErreur
          etat).etat = etatApres operation etat j := by
  intro j
  induction j with
  | zero =>
    intro tentative derniereErreur etat erreurs hj _
    rw [avecRetry_boucle_fin operation maxTentatives delaiMs tentative derniereErreur
      etat (by omega)]
    simp [etatApres]
  | succ j ih =>
    intro tentative derniereErreur etat erreurs hj hechecs
    have hop := paire_de_premiere (operation etat) (.error (erreurs 0)) (hechecs 0 (by omega))
    have hsuite := ih (tentative + 1) (some (erreurs 0)) (operation etat).2
      (fun i => erreurs (i + 1)) (by omega) (fun i hi => hechecs (i + 1) (by omega))
    rw [avecRetry_boucle_echec operation maxTentatives delaiMs tentative derniereErreur
      etat _ (erreurs 0) (by omega) hop]
    obtain ⟨h1, h2, h3⟩ := hsuite
    refine ⟨?_, ?_, ?_⟩
    · rw [h1]
      rcases Nat.eq_zero_or_pos j with h0 | hpos
      · subst h0; rfl
      · have : j - 1 + 1 = j := by omega
        simp [Nat.ne_of_gt hpos, this]
    · by_cases hlt : tentative < maxTentatives <;> simp [hlt, h2]
    · rw [h3]; rfl

theorem retryAvecDelai_boucle_echecs {σ α : Type} (fn : Operation σ α)
    (maxTentatives delai : Nat) :
    ∀ (j tentative : Nat) (dernierError : Option Erreur) (etat : σ) (erreurs : Nat → Erreur),
      tentative + j = maxTentatives + 1 →
      (∀ i, i < j → (fn (etatApres fn etat i)).1 = .error (erreurs i)) →
      (retryAvecDelai.boucle fn maxTentatives delai tentative dernierError etat).issue
          = .rejetee (erreurFinale maxTentatives
              (if j = 0 then dernierError else some (erreurs (j - 1)))) ∧
        nombreAppels (retryAvecDelai.boucle fn maxTentatives delai tentative dernierError
          etat).journal = j ∧
        (retryAvecDelai.boucle fn maxTentatives delai tentative dernierError etat).etat
          = etatApres fn etat j := by
  intro j
  induction j with
  | zero =>
    intro tentative dernierError etat erreurs hj _
    rw [retryAvecDelai_boucle_fin fn maxTentatives delai tentative dernierError
      etat (by omega)]
    simp [etatApres]
  | succ j ih =>
    intro tentative dernierError etat erreurs hj hechecs
    have hop := paire_de_premiere (fn etat) (.error (erreurs 0)) (hechecs 0 (by omega))
    have hsuite := ih (tentative + 1) (some (erreurs 0)) (fn etat).2
      (fun i => erreurs (i + 1)) (by omega) (fun i hi => hechecs (i + 1) (by omega))
    rw [retryAvecDelai_boucle_echec fn maxTentatives delai tentative dernierError
      etat _ (erreurs 0) (by omega) hop]
    obtain ⟨h1, h2, h3⟩ := hsuite
    refine ⟨?_, ?_, ?_⟩
    · rw [h1]
      rcases Nat.eq_zero_or_pos j with h0 | hpos
      · subst h0; rfl
      · have : j - 1 + 1 = j := by omega
        simp [Nat.ne_of_gt hpos, this]
    · by_cases hlt : tentative < maxTentatives <;> simp [hlt, h2]
    · rw [h3]; rfl

/-! ### Calls and waits alternate -/

theorem avecRetry_boucle_attentes {σ α : Type} (operation : Operation σ α)
    (maxTentatives delaiMs : Nat) :
    ∀ (j tentative : Nat) (derniereErreur : Option Erreur) (etat : σ),
      tentative + j = maxTentatives + 1 →
      sansConsole (ServiceAvecRetry.boucle operation maxTentatives delaiMs tentative derniereErreur etat).journal
          = List.intersperse (.attente delaiMs)
              (List.replicate
                (nombreAppels (ServiceAvecRetry.boucle operation maxTentatives delaiMs tentative derniereErreur
                  etat).journal) .appel) ∧
        nombreAppels (ServiceAvecRetry.boucle operation maxTentatives delaiMs tentative derniereErreur etat).journal ≤ j ∧
        (1 ≤ j →
          1 ≤ nombreAppels (ServiceAvecRetry.boucle operation maxTentatives delaiMs tentative derniereErreur
            etat).journal) ∧
        nombreAttentes (ServiceAvecRetry.boucle operation maxTentatives delaiMs tentative derniereErreur etat).journal
          = nombreAppels (ServiceAvecRetry.boucle operation maxTentatives delaiMs tentative derniereErreur
              etat).journal - 1 := by
  intro j
  induction j with
  | zero =>
    intro tentative derniereErreur etat hj
    rw [avecRetry_boucle_fin operation maxTentatives delaiMs tentative derniereErreur etat (by omega)]
    simp
  | succ j ih =>
    intro tentative derniereErreur etat hj
    have hle : tentative ≤ maxTentatives := by omega
    rcases hres : (operation etat).1 with e | v
    · have hop := paire_de_premiere (operation etat) (.error e) hres
      rw [avecRetry_boucle_echec operation maxTentatives delaiMs tentative derniereErreur etat _ e hle hop]
      obtain ⟨h1, h2, h3, h4⟩ := ih (tentative + 1) (some e) (operation etat).2 (by omega)
      rcases Nat.eq_zero_or_pos j with h0 | hpos
      · subst h0
        have hnlt : ¬ tentative < maxTentatives := by omega
        have hzero : nombreAppels (ServiceAvecRetry.boucle operation maxTentatives delaiMs (tentative + 1)
            (some e) (operation etat).2).journal = 0 := by omega
        rw [hzero] at h1 h4
        simp [hnlt, h1, h4, hzero]
      · have hlt : tentative < maxTentatives := by omega
        have hun := h3 hpos
        obtain ⟨n, hn⟩ : ∃ n, nombreAppels (ServiceAvecRetry.boucle operation maxTentatives delaiMs
            (tentative + 1) (some e) (operation etat).2).journal = n + 1 :=
          ⟨_, (Nat.sub_add_cancel hun).symm⟩
        rw [hn] at h1 h2 h4
        simp [hlt, h1, h4, hn, List.replicate_succ]
        omega
    · have hop := paire_de_premiere (operation etat) (.ok v) hres
      rw [avecRetry_boucle_succes operation maxTentatives delaiMs tentative derniereErreur etat _ v hle hop]
      simp

theorem retryAvecDelai_boucle_attentes {σ α : Type} (fn : Operation σ α)
    (maxTentatives delai : Nat) :
    ∀ (j tentative : Nat) (dernierError : Option Erreur) (etat : σ),
      tentative + j = maxTentatives + 1 →
      sansConsole (retryAvecDelai.boucle fn maxTentatives delai tentative dernierError etat).journal
          = List.intersperse (.attente delai)
              (List.replicate
                (nombreAppels (retryAvecDelai.boucle fn maxTentatives delai tentative dernierError
                  etat).journal) .appel) ∧
        nombreAppels (retryAvecDelai.boucle fn maxTentatives delai tentative dernierError etat).journal ≤ j ∧
        (1 ≤ j →
          1 ≤ nombreAppels (retryAvecDelai.boucle fn maxTentatives delai tentative dernierError
            etat).journal) ∧
        nombreAttentes (retryAvecDelai.boucle fn maxTentatives delai tentative dernierError etat).journal
          = nombreAppels (retryAvecDelai.boucle fn maxTentatives delai tentative dernierError
              etat).journal - 1 := by
  intro j
  induction j with
  | zero =>
    intro tentative dernierError etat hj
    rw [retryAvecDelai_boucle_fin fn maxTentatives delai tentative dernierError etat (by omega)]
    simp
  | succ j ih =>
    intro tentative dernierError etat hj
    have hle : tentative ≤ maxTentatives := by omega
    rcases hres : (fn etat).1 with e | v
    · have hop := paire_de_premiere (fn etat) (.error e) hres
      rw [retryAvecDelai_boucle_echec fn maxTentatives delai tentative dernierError etat _ e hle hop]
      obtain ⟨h1, h2, h3, h4⟩ := ih (tentative + 1) (some e) (fn etat).2 (by omega)
      rcases Nat.eq_zero_or_pos j with h0 | hpos
      · subst h0
        have hnlt : ¬ tentative < maxTentatives := by omega
        have hzero : nombreAppels (retryAvecDelai.boucle fn maxTentatives delai (tentative + 1)
            (some e) (fn etat).2).journal = 0 := by omega
        rw [hzero] at h1 h4
        simp [hnlt, h1, h4, hzero]
      · have hlt : tentative < maxTentatives := by omega
        have hun := h3 hpos
        obtain ⟨n, hn⟩ : ∃ n, nombreAppels (retryAvecDelai.boucle fn maxTentatives delai
            (tentative + 1) (some e) (fn etat).2).journal = n + 1 :=
          ⟨_, (Nat.sub_add_cancel hun).symm⟩
        rw [hn] at h1 h2 h4
        simp [hlt, h1, h4, hn, List.replicate_succ]
        omega
    · have hop := paire_de_premiere (fn etat) (.ok v) hres
      rw [retryAvecDelai_boucle_succes fn maxTentatives delai tentative dernierError etat _ v hle hop]
      simp

/-! ## The retry executors succeed as soon as the operation does -/

/-- C1: for every `maxTentatives = N ≥ 1`, every `k < N` and every delay, if the
operation fails on its first `k` calls and succeeds on call `k + 1` with value `v`,
then `avecRetry` and `retryAvecDelai` both resolve with exactly `v` after exactly
`k + 1` invocations of the operation (whose closure state has then advanced by `k + 1`
calls). -/
theorem retry_resout_apres_k_echecs {σ α : Type} (operation : Operation σ α) (etat : σ)
    (N k delai : Nat) (v : α) (_hN : 1 ≤ N) (hk : k < N)
    (hechecs : ∀ i, i < k → ∃ e, (operation (etatApres operation etat i)).1 = .error e)
    (hsucces : (operation (etatApres operation etat k)).1 = .ok v) :
    ((ServiceAvecRetry.avecRetry operation (some N) (some delai) etat).issue = .resolue v ∧
      nombreAppels (ServiceAvecRetry.avecRetry operation (some N) (some delai) etat).journal
        = k + 1 ∧
      (ServiceAvecRetry.avecRetry operation (some N) (some delai) etat).etat
        = etatApres operation etat (k + 1)) ∧
    ((retryAvecDelai operation (some N) (some delai) etat).issue = .resolue v ∧
      nombreAppels (retryAvecDelai operation (some N) (some delai) etat).journal = k + 1 ∧
      (retryAvecDelai operation (some N) (some delai) etat).etat
        = etatApres operation etat (k + 1)) := by
  have h1 := avecRetry_boucle_succes_apres operation N delai v k 1 none etat
    (by omega) hechecs hsucces
  have h2 := retryAvecDelai_boucle_succes_apres operation N delai v k 1 none etat
    (by omega) hechecs hsucces
  exact ⟨⟨h1.1, h1.2.1, h1.2.2.2⟩, ⟨h2.1, h2.2.1, h2.2.2.2⟩⟩

/-- Witness of C1 on the example of the claim: `operationInstable` on a fresh
service fails twice and then succeeds, and with `N = 3` both executors succeed on the
third attempt. -/
theorem retry_resout_apres_k_echecs_temoin :
    (1 ≤ 3 ∧ 2 < 3 ∧
      (∀ i, i < 2 → ∃ e, (ServiceAvecRetry.operationInstable
        (etatApres ServiceAvecRetry.operationInstable ServiceAvecRetry.nouveau i)).1
          = .error e) ∧
      (ServiceAvecRetry.operationInstable
        (etatApres ServiceAvecRetry.operationInstable ServiceAvecRetry.nouveau 2)).1
          = .ok "Succès après 3 tentatives") ∧
    (((ServiceAvecRetry.avecRetry ServiceAvecRetry.operationInstable (some 3) (some 50)
          ServiceAvecRetry.nouveau).issue = .resolue "Succès après 3 tentatives" ∧
      nombreAppels (ServiceAvecRetry.avecRetry ServiceAvecRetry.operationInstable (some 3)
          (some 50) ServiceAvecRetry.nouveau).journal = 2 + 1 ∧
      (ServiceAvecRetry.avecRetry ServiceAvecRetry.operationInstable (some 3) (some 50)
          ServiceAvecRetry.nouveau).etat
        = etatApres ServiceAvecRetry.operationInstable ServiceAvecRetry.nouveau (2 + 1)) ∧
    ((retryAvecDelai ServiceAvecRetry.operationInstable (some 3) (some 50)
          ServiceAvecRetry.nouveau).issue = .resolue "Succès après 3 tentatives" ∧
      nombreAppels (retryAvecDelai ServiceAvecRetry.operationInstable (some 3) (some 50)
          ServiceAvecRetry.nouveau).journal = 2 + 1 ∧
      (retryAvecDelai ServiceAvecRetry.operationInstable (some 3) (some 50)
          ServiceAvecRetry.nouveau).etat
        = etatApres ServiceAvecRetry.operationInstable ServiceAvecRetry.nouveau (2 + 1))) :=
  have hechecs : ∀ i, i < 2 → ∃ e, (ServiceAvecRetry.operationInstable
      (etatApres ServiceAvecRetry.operationInstable ServiceAvecRetry.nouveau i)).1
        = .error e := by
    intro i hi
    interval_cases i
    · exact ⟨_, rfl⟩
    · exact ⟨_, rfl⟩
  have hsucces : (ServiceAvecRetry.operationInstable
      (etatApres ServiceAvecRetry.operationInstable ServiceAvecRetry.nouveau 2)).1
        = .ok "Succès après 3 tentatives" := by
    simp [etatApres, ServiceAvecRetry.operationInstable, ServiceAvecRetry.nouveau]
    decide
  ⟨⟨by decide, by decide, hechecs, hsucces⟩,
    retry_resout_apres_k_echecs ServiceAvecRetry.operationInstable ServiceAvecRetry.nouveau
      3 2 50 "Succès après 3 tentatives" (by decide) (by decide) hechecs hsucces⟩

/-! ## The retry executors give up after `maxTentatives` failures -/

/-- C2: for every `maxTentatives = N ≥ 1` and every operation whose first `N` calls
all fail, call `i + 1` with the error `erreurs i`, `avecRetry` and `retryAvecDelai`
invoke the operation exactly `N` times and then reject with the error whose message
is "Échec après N tentatives: " followed by the message of the `N`-th failure. -/
theorem retry_echoue_apres_N_echecs {σ α : Type} (operation : Operation σ α) (etat : σ)
    (N delai : Nat) (erreurs : Nat → Erreur) (hN : 1 ≤ N)
    (hechecs : ∀ i, i < N → (operation (etatApres operation etat i)).1 = .error (erreurs i)) :
    (nombreAppels (ServiceAvecRetry.avecRetry operation (some N) (some delai) etat).journal
        = N ∧
      (ServiceAvecRetry.avecRetry operation (some N) (some delai) etat).etat
        = etatApres operation etat N ∧
      (ServiceAvecRetry.avecRetry operation (some N) (some delai) etat).issue
        = .rejetee { message :=
            "Échec après " ++ toString N ++ " tentatives: " ++ (erreurs (N - 1)).message }) ∧
    (nombreAppels (retryAvecDelai operation (some N) (some delai) etat).journal = N ∧
      (retryAvecDelai operation (some N) (some delai) etat).etat
        = etatApres operation etat N ∧
      (retryAvecDelai operation (some N) (some delai) etat).issue
        = .rejetee { message :=
            "Échec après " ++ toString N ++ " tentatives: " ++ (erreurs (N - 1)).message }) := by
  have h1 := avecRetry_boucle_echecs operation N delai N 1 none etat erreurs
    (by omega) hechecs
  have h2 := retryAvecDelai_boucle_echecs operation N delai N 1 none etat erreurs
    (by omega) hechecs
  have hne : N ≠ 0 := by omega
  simp only [hne, if_false] at h1 h2
  exact ⟨⟨h1.2.1, h1.2.2, h1.1⟩, ⟨h2.2.1, h2.2.2, h2.1⟩⟩

/-- Witness of C2: the closure of `creerFonctionInstable(5, 'Succès')` fails on its
first five calls, so with `N = 3` both executors call it three times and reject with
a message that ends with the message of the third failure. -/
theorem retry_echoue_apres_N_echecs_temoin :
    (1 ≤ 3 ∧
      ∀ i, i < 3 → (creerFonctionInstable 5 "Succès"
        (etatApres (creerFonctionInstable 5 "Succès") 0 i)).1
          = .error { message := "Échec " ++ toString (i + 1) ++ "/" ++ toString 5 }) ∧
    ((nombreAppels (ServiceAvecRetry.avecRetry (creerFonctionInstable 5 "Succès") (some 3)
          (some 10) 0).journal = 3 ∧
      (ServiceAvecRetry.avecRetry (creerFonctionInstable 5 "Succès") (some 3) (some 10) 0).etat
        = etatApres (creerFonctionInstable 5 "Succès") 0 3 ∧
      (ServiceAvecRetry.avecRetry (creerFonctionInstable 5 "Succès") (some 3) (some 10)
          0).issue
        = .rejetee { message :=
            "Échec après " ++ toString 3 ++ " tentatives: " ++
              (Erreur.mk ("Échec " ++ toString (3 - 1 + 1) ++ "/" ++ toString 5)).message }) ∧
    (nombreAppels (retryAvecDelai (creerFonctionInstable 5 "Succès") (some 3)
          (some 10) 0).journal = 3 ∧
      (retryAvecDelai (creerFonctionInstable 5 "Succès") (some 3) (some 10) 0).etat
        = etatApres (creerFonctionInstable 5 "Succès") 0 3 ∧
      (retryAvecDelai (creerFonctionInstable 5 "Succès") (some 3) (some 10) 0).issue
        = .rejetee { message :=
            "Échec après " ++ toString 3 ++ " tentatives: " ++
              (Erreur.mk ("Échec " ++ toString (3 - 1 + 1) ++ "/" ++ toString 5)).message })) :=
  have hechecs : ∀ i, i < 3 → (creerFonctionInstable 5 "Succès"
      (etatApres (creerFonctionInstable 5 "Succès") 0 i)).1
        = .error { message := "Échec " ++ toString (i + 1) ++ "/" ++ toString 5 } := by
    intro i hi
    interval_cases i <;> rfl
  ⟨⟨by decide, hechecs⟩,
    retry_echoue_apres_N_echecs (creerFonctionInstable 5 "Succès") 0 3 10
      (fun i => { message := "Échec " ++ toString (i + 1) ++ "/" ++ toString 5 })
      (by decide) hechecs⟩

/-! ## The delay is waited between attempts only -/

/-- C7: for every run of `avecRetry` and of `retryAvecDelai` with `maxTentatives = N ≥ 1`,
the calls and the waits of the run, in order, are the calls separated by one wait of
`delai` each: a wait follows every call that is followed by another call and nothing
follows the last call.  The run makes between 1 and `N` calls and waits exactly one
time less than it calls; it waits `N - 1` times when every one of the `N` calls fails,
and with `N = 1` there is a single call and no wait. -/
theorem retry_attentes_entre_tentatives {σ α : Type} (operation : Operation σ α) (etat : σ)
    (N delai : Nat) (erreurs : Nat → Erreur) (hN : 1 ≤ N) :
    (sansConsole (ServiceAvecRetry.avecRetry operation (some N) (some delai) etat).journal
        = List.intersperse (.attente delai)
            (List.replicate (nombreAppels (ServiceAvecRetry.avecRetry operation (some N) (some delai) etat).journal) .appel) ∧
      1 ≤ nombreAppels (ServiceAvecRetry.avecRetry operation (some N) (some delai) etat).journal ∧
      nombreAppels (ServiceAvecRetry.avecRetry operation (some N) (some delai) etat).journal ≤ N ∧
      nombreAttentes (ServiceAvecRetry.avecRetry operation (some N) (some delai) etat).journal + 1 = nombreAppels (ServiceAvecRetry.avecRetry operation (some N) (some delai) etat).journal ∧
      ((∀ i, i < N → (operation (etatApres operation etat i)).1 = .error (erreurs i)) →
        nombreAttentes (ServiceAvecRetry.avecRetry operation (some N) (some delai) etat).journal = N - 1) ∧
      (N = 1 → nombreAppels (ServiceAvecRetry.avecRetry operation (some N) (some delai) etat).journal = 1 ∧ nombreAttentes (ServiceAvecRetry.avecRetry operation (some N) (some delai) etat).journal = 0)) ∧
    (sansConsole (retryAvecDelai operation (some N) (some delai) etat).journal
        = List.intersperse (.attente delai)
            (List.replicate (nombreAppels (retryAvecDelai operation (some N) (some delai) etat).journal) .appel) ∧
      1 ≤ nombreAppels (retryAvecDelai operation (some N) (some delai) etat).journal ∧
      nombreAppels (retryAvecDelai operation (some N) (some delai) etat).journal ≤ N ∧
      nombreAttentes (retryAvecDelai operation (some N) (some delai) etat).journal + 1 = nombreAppels (retryAvecDelai operation (some N) (some delai) etat).journal ∧
      ((∀ i, i < N → (operation (etatApres operation etat i)).1 = .error (erreurs i)) →
        nombreAttentes (retryAvecDelai operation (some N) (some delai) etat).journal = N - 1) ∧
      (N = 1 → nombreAppels (retryAvecDelai operation (some N) (some delai) etat).journal = 1 ∧ nombreAttentes (retryAvecDelai operation (some N) (some delai) etat).journal = 0)) := by
  have e1 : ServiceAvecRetry.avecRetry operation (some N) (some delai) etat
      = ServiceAvecRetry.boucle operation N delai 1 none etat := rfl
  have e2 : retryAvecDelai operation (some N) (some delai) etat
      = retryAvecDelai.boucle operation N delai 1 none etat := rfl
  rw [e1, e2]
  obtain ⟨a1, a2, a3, a4⟩ :=
    avecRetry_boucle_attentes operation N delai N 1 none etat (by omega)
  obtain ⟨b1, b2, b3, b4⟩ :=
    retryAvecDelai_boucle_attentes operation N delai N 1 none etat (by omega)
  have a5 := a3 hN
  have b5 := b3 hN
  refine ⟨⟨a1, a5, a2, by omega, ?_, ?_⟩, ⟨b1, b5, b2, by omega, ?_, ?_⟩⟩
  · intro hechecs
    have h := (avecRetry_boucle_echecs operation N delai N 1 none etat erreurs
      (by omega) hechecs).2.1
    omega
  · intro h1N
    omega
  · intro hechecs
    have h := (retryAvecDelai_boucle_echecs operation N delai N 1 none etat erreurs
      (by omega) hechecs).2.1
    omega
  · intro h1N
    omega

/-- Witness of C7 on the closure of `creerFonctionInstable(5, 'Succès')` with
`N = 3` and a delay of 10 ms. -/
theorem retry_attentes_entre_tentatives_temoin :
    1 ≤ 3 ∧
    ((sansConsole (ServiceAvecRetry.avecRetry (creerFonctionInstable 5 "Succès") (some 3) (some 10) 0).journal
        = List.intersperse (.attente 10)
            (List.replicate (nombreAppels (ServiceAvecRetry.avecRetry (creerFonctionInstable 5 "Succès") (some 3) (some 10) 0).journal) .appel) ∧
      1 ≤ nombreAppels (ServiceAvecRetry.avecRetry (creerFonctionInstable 5 "Succès") (some 3) (some 10) 0).journal ∧
      nombreAppels (ServiceAvecRetry.avecRetry (creerFonctionInstable 5 "Succès") (some 3) (some 10) 0).journal ≤ 3 ∧
      nombreAttentes (ServiceAvecRetry.avecRetry (creerFonctionInstable 5 "Succès") (some 3) (some 10) 0).journal + 1 = nombreAppels (ServiceAvecRetry.avecRetry (creerFonctionInstable 5 "Succès") (some 3) (some 10) 0).journal ∧
      ((∀ i, i < 3 → ((creerFonctionInstable 5 "Succès") (etatApres ((creerFonctionInstable 5 "Succès")) 0 i)).1 = .error ((fun i => Erreur.mk ("Échec " ++ toString (i + 1) ++ "/" ++ toString 5)) i)) →
        nombreAttentes (ServiceAvecRetry.avecRetry (creerFonctionInstable 5 "Succès") (some 3) (some 10) 0).journal = 3 - 1) ∧
      (3 = 1 → nombreAppels (ServiceAvecRetry.avecRetry (creerFonctionInstable 5 "Succès") (some 3) (some 10) 0).journal = 1 ∧ nombreAttentes (ServiceAvecRetry.avecRetry (creerFonctionInstable 5 "Succès") (some 3) (some 10) 0).journal = 0)) ∧
    (sansConsole (retryAvecDelai (creerFonctionInstable 5 "Succès") (some 3) (some 10) 0).journal
        = List.intersperse (.attente 10)
            (List.replicate (nombreAppels (retryAvecDelai (creerFonctionInstable 5 "Succès") (some 3) (some 10) 0).journal) .appel) ∧
      1 ≤ nombreAppels (retryAvecDelai (creerFonctionInstable 5 "Succès") (some 3) (some 10) 0).journal ∧
      nombreAppels (retryAvecDelai (creerFonctionInstable 5 "Succès") (some 3) (some 10) 0).journal ≤ 3 ∧
      nombreAttentes (retryAvecDelai (creerFonctionInstable 5 "Succès") (some 3) (some 10) 0).journal + 1 = nombreAppels (retryAvecDelai (creerFonctionInstable 5 "Succès") (some 3) (some 10) 0).journal ∧
      ((∀ i, i < 3 → ((creerFonctionInstable 5 "Succès") (etatApres ((creerFonctionInstable 5 "Succès")) 0 i)).1 = .error ((fun i => Erreur.mk ("Échec " ++ toString (i + 1) ++ "/" ++ toString 5)) i)) →
        nombreAttentes (retryAvecDelai (creerFonctionInstable 5 "Succès") (some 3) (some 10) 0).journal = 3 - 1) ∧
      (3 = 1 → nombreAppels (retryAvecDelai (creerFonctionInstable 5 "Succès") (some 3) (some 10) 0).journal = 1 ∧ nombreAttentes (retryAvecDelai (creerFonctionInstable 5 "Succès") (some 3) (some 10) 0).journal = 0))) :=
  ⟨by decide,
    retry_attentes_entre_tentatives (creerFonctionInstable 5 "Succès") 0 3 10
      (fun i => Erreur.mk ("Échec " ++ toString (i + 1) ++ "/" ++ toString 5)) (by decide)⟩

/-! ## Lemmas on the notification manager -/

theorem clearInterval_foldl (intervalles : JsMap) :
    ∀ m : Minuteries,
      intervalles.foldl (fun m p => clearInterval p.2 m) m
        = { prochaine := m.prochaine,
            actives := m.actives.filter
              (fun t => !(intervalles.map (fun p => p.2)).contains t.poignee) } := by
  induction intervalles with
  | nil => intro m; simp
  | cons p reste ih =>
    intro m
    rw [List.foldl_cons, ih]
    simp only [clearInterval, List.filter_filter, List.map_cons, List.contains_cons]
    congr 1
    apply List.filter_congr
    intro t _
    by_cases h : t.poignee = p.2 <;> simp [h, bne, Bool.and_comm]

theorem GestionnaireNotifications.verifierNotifications.boucle_ajoute (n : Nat)
    (tirages : Nat → Tirage) :
    ∀ (m i : Nat) (l : List Notification), n - i = m →
      ∃ nouvelles,
        GestionnaireNotifications.verifierNotifications.boucle n tirages i l = l ++ nouvelles ∧
          nouvelles.length = m ∧
          identifiants nouvelles
            = (List.range' i m).map
                (fun k => additionDouble (tirages k).horlogeId (tirages k).alea.valeur) := by
  intro m
  induction m with
  | zero =>
    intro i l hm
    refine ⟨[], ?_, rfl, rfl⟩
    rw [GestionnaireNotifications.verifierNotifications.boucle.eq_def, if_neg (by omega)]
    simp
  | succ m ih =>
    intro i l hm
    obtain ⟨nouvelles, h1, h2, h3⟩ := ih (i + 1)
      (l ++ [{ id := additionDouble (tirages i).horlogeId (tirages i).alea.valeur,
               message := "Notification " ++ toString (l.length + i + 1),
               timestamp := (tirages i).horlogeTimestamp }]) (by omega)
    refine ⟨{ id := additionDouble (tirages i).horlogeId (tirages i).alea.valeur,
              message := "Notification " ++ toString (l.length + i + 1),
              timestamp := (tirages i).horlogeTimestamp } :: nouvelles, ?_, ?_, ?_⟩
    · rw [GestionnaireNotifications.verifierNotifications.boucle.eq_def, if_pos (by omega), h1]
      simp
    · simp [h2]
    · simp only [identifiants, List.map_cons, List.range'_succ] at h3 ⊢
      rw [h3]

theorem nombreNouvelles_le_deux (aleaNombre : Alea) : ⌊aleaNombre.valeur * 3⌋₊ ≤ 2 := by
  have h0 : (0 : ℚ) ≤ aleaNombre.valeur * 3 := by
    have := aleaNombre.positif
    linarith
  have h : ⌊aleaNombre.valeur * 3⌋₊ < 3 := by
    rw [Nat.floor_lt h0]
    have := aleaNombre.inferieurAUn
    push_cast
    linarith
  omega

theorem GestionnaireNotifications.verifierNotifications_inactif
    (self : GestionnaireNotifications) (aleaNombre : Alea) (tirages : Nat → Tirage)
    (h : self.actif = false) : self.verifierNotifications aleaNombre tirages = self := by
  simp [GestionnaireNotifications.verifierNotifications, h]

theorem GestionnaireNotifications.verifierNotifications_actif
    (self : GestionnaireNotifications) (aleaNombre : Alea) (tirages : Nat → Tirage)
    (h : self.actif = true) :
    ∃ nouvelles,
      (self.verifierNotifications aleaNombre tirages).notifications
          = self.notifications ++ nouvelles ∧
        nouvelles.length = ⌊aleaNombre.valeur * 3⌋₊ ∧
        identifiants nouvelles = idsDUnePasse aleaNombre tirages ∧
        (self.verifierNotifications aleaNombre tirages).actif = true ∧
        (self.verifierNotifications aleaNombre tirages).intervalles = self.intervalles := by
  obtain ⟨nouvelles, h1, h2, h3⟩ :=
    GestionnaireNotifications.verifierNotifications.boucle_ajoute ⌊aleaNombre.valeur * 3⌋₊
      tirages ⌊aleaNombre.valeur * 3⌋₊ 0 self.notifications (by omega)
  refine ⟨nouvelles, ?_, h2, ?_, ?_, ?_⟩
  · simp [GestionnaireNotifications.verifierNotifications, h, h1]
  · rw [h3, idsDUnePasse, operandesDUnePasse, List.range_eq_range', List.map_map]
    rfl
  · simp [GestionnaireNotifications.verifierNotifications, h]
  · simp [GestionnaireNotifications.verifierNotifications, h]

theorem Systeme.verifierNotifications_apres_arret (passes : List (Alea × (Nat → Tirage))) :
    ∀ s : Systeme, s.gestionnaire.actif = false →
      passes.foldl (fun s p => s.verifierNotifications p.1 p.2) s = s := by
  induction passes with
  | nil => intro s _; rfl
  | cons p reste ih =>
    intro s h
    have hs : s.verifierNotifications p.1 p.2 = s := by
      simp [Systeme.verifierNotifications,
        GestionnaireNotifications.verifierNotifications_inactif _ _ _ h]
    rw [List.foldl_cons, hs]
    exact ih s h

theorem identifiants_append (l l' : List Notification) :
    identifiants (l ++ l') = identifiants l ++ identifiants l' := by
  simp [identifiants]

theorem Action.executer_identifiants (a : Action) (s : Systeme) :
    (identifiants (a.executer s).gestionnaire.notifications).Sublist
      (identifiants s.gestionnaire.notifications ++ a.idsCalcules s) := by
  cases a with
  | demarrer aleaNombre tirages =>
    cases h : s.gestionnaire.actif with
    | true =>
      have hs : s.demarrer aleaNombre tirages = s := by simp [Systeme.demarrer, h]
      simp [Action.executer, Action.idsCalcules, Action.operandes, h, hs]
    | false =>
      obtain ⟨nouvelles, h1, _, h3, _⟩ :=
        GestionnaireNotifications.verifierNotifications_actif
          { s.gestionnaire with actif := true } aleaNombre tirages rfl
      have hs : (s.demarrer aleaNombre tirages).gestionnaire.notifications
          = s.gestionnaire.notifications ++ nouvelles := by
        simp only [Systeme.demarrer, h]
        exact h1
      simp [Action.executer, Action.idsCalcules, Action.operandes, h, hs,
        identifiants_append, h3, idsDUnePasse]
  | arreter =>
    simp [Action.executer, Action.idsCalcules, Action.operandes, Systeme.arreter]
  | verifierNotifications aleaNombre tirages =>
    cases h : s.gestionnaire.actif with
    | true =>
      obtain ⟨nouvelles, h1, _, h3, _⟩ :=
        GestionnaireNotifications.verifierNotifications_actif s.gestionnaire aleaNombre
          tirages h
      simp [Action.executer, Action.idsCalcules, Action.operandes, h,
        Systeme.verifierNotifications, h1, identifiants_append, h3, idsDUnePasse]
    | false =>
      simp [Action.executer, Action.idsCalcules, Action.operandes, h,
        Systeme.verifierNotifications,
        GestionnaireNotifications.verifierNotifications_inactif _ _ _ h]
  | nettoyerNotifications maintenant =>
    simp only [Action.executer, Action.idsCalcules, Action.operandes,
      Systeme.nettoyerNotifications, GestionnaireNotifications.nettoyerNotifications,
      List.map_nil, List.append_nil, identifiants]
    exact (List.filter_sublist _).map _

theorem arrondiPair_erreur (y : ℚ) : |(arrondiPair y : ℚ) - y| ≤ 1 / 2 := by
  have h1 : ((⌊y⌋ : Int) : ℚ) ≤ y := Int.floor_le y
  have h2 : y < ((⌊y⌋ : Int) : ℚ) + 1 := Int.lt_floor_add_one y
  unfold arrondiPair
  rw [abs_le]
  split_ifs <;> push_cast <;> constructor <;> linarith

theorem pasDouble_pos (t : Nat) : 0 < pasDouble t := by
  unfold pasDouble
  positivity

theorem additionDouble_erreur (t : Nat) (r : ℚ) :
    |additionDouble t r - ((t : ℚ) + r)| ≤ pasDouble t / 2 := by
  have hp := pasDouble_pos t
  unfold additionDouble
  split_ifs with h
  · subst h
    simp
    linarith
  · have he := arrondiPair_erreur (((t : ℚ) + r) / pasDouble t)
    have heq : (arrondiPair (((t : ℚ) + r) / pasDouble t) : ℚ) * pasDouble t - ((t : ℚ) + r)
        = ((arrondiPair (((t : ℚ) + r) / pasDouble t) : ℚ) - ((t : ℚ) + r) / pasDouble t)
            * pasDouble t := by
      field_simp
    rw [heq, abs_mul, abs_of_pos hp]
    calc _ ≤ 1 / 2 * pasDouble t := mul_le_mul_of_nonneg_right he hp.le
      _ = pasDouble t / 2 := by ring

theorem SommesEcartees.ids_distincts {p q : Nat × ℚ} (h : SommesEcartees p q) :
    additionDouble p.1 p.2 ≠ additionDouble q.1 q.2 := by
  intro heq
  have hp := abs_le.mp (additionDouble_erreur p.1 p.2)
  have hq := abs_le.mp (additionDouble_erreur q.1 q.2)
  have hmp := le_max_left (pasDouble p.1) (pasDouble q.1)
  have hmq := le_max_right (pasDouble p.1) (pasDouble q.1)
  have hpp := pasDouble_pos p.1
  have hpq := pasDouble_pos q.1
  have hle : |((p.1 : ℚ) + p.2) - ((q.1 : ℚ) + q.2)|
      ≤ max (pasDouble p.1) (pasDouble q.1) := by
    rw [abs_le]
    constructor <;> linarith [hp.1, hp.2, hq.1, hq.2]
  exact absurd h (not_lt.mpr hle)

theorem operandesEcartees_sansDoublon :
    ∀ (actions : List Action) (s : Systeme) (passes : List (Nat × ℚ)),
      (identifiants s.gestionnaire.notifications).Nodup →
      (∀ id, id ∈ identifiants s.gestionnaire.notifications →
        ∃ p, p ∈ passes ∧ id = additionDouble p.1 p.2) →
      (passes ++ operandesDesIds actions s).Pairwise SommesEcartees →
      (identifiants (Systeme.executerTout actions s).gestionnaire.notifications).Nodup := by
  intro actions
  induction actions with
  | nil => intro s _ hs _ _; exact hs
  | cons a reste ih =>
    intro s passes hnodup hmem hpaires
    have hpaires' : ((passes ++ a.operandes s) ++ operandesDesIds reste (a.executer s)).Pairwise
        SommesEcartees := by
      rw [List.append_assoc]
      exact hpaires
    have hdebut : (passes ++ a.operandes s).Pairwise SommesEcartees :=
      (List.pairwise_append.mp hpaires').1
    obtain ⟨_, hnouveaux, hcroises⟩ := List.pairwise_append.mp hdebut
    have hsous := Action.executer_identifiants a s
    have htout : (identifiants s.gestionnaire.notifications ++ a.idsCalcules s).Nodup := by
      rw [List.nodup_append]
      refine ⟨hnodup, ?_, ?_⟩
      · unfold Action.idsCalcules
        rw [List.Nodup, List.pairwise_map]
        exact hnouveaux.imp (fun h => h.ids_distincts)
      · intro id hid hid'
        obtain ⟨p, hp, rfl⟩ := hmem id hid
        obtain ⟨q, hq, hpq⟩ := List.mem_map.mp hid'
        exact (hcroises p hp q hq).ids_distincts hpq.symm
    refine ih (a.executer s) (passes ++ a.operandes s) (htout.sublist hsous) ?_ hpaires'
    intro id hid
    rcases List.mem_append.mp (hsous.subset hid) with h | h
    · obtain ⟨p, hp, hpid⟩ := hmem id h
      exact ⟨p, List.mem_append_left _ hp, hpid⟩
    · obtain ⟨q, hq, hqid⟩ := List.mem_map.mp h
      exact ⟨q, List.mem_append_right _ hq, hqid.symm⟩

theorem log_deux_de_mille : Nat.log 2 1000 = 9 := by
  rw [Nat.log_eq_iff (by norm_num)]
  norm_num

theorem log_deux_d_une_horloge_actuelle : Nat.log 2 1700000000000 = 40 := by
  rw [Nat.log_eq_iff (by norm_num)]
  norm_num

/-- At a clock reading of today the doubles are `2 ^ (-12)` apart, and two draws that
differ by `2 ^ (-14)` give the same sum. -/
theorem additionDouble_confond_deux_tirages_proches :
    additionDouble 1700000000000 (1 / 2) = 3400000000001 / 2 ∧
      additionDouble 1700000000000 (1 / 2 + 1 / 16384) = 3400000000001 / 2 := by
  constructor
  · simp [additionDouble, pasDouble, log_deux_d_une_horloge_actuelle, arrondiPair]
    norm_num
  · have hplancher : ⌊((1700000000000 : ℚ) + (1 / 2 + 1 / 16384)) / (2 ^ 40 / 2 ^ 52)⌋
        = 6963200000002048 := by
      rw [Int.floor_eq_iff]
      norm_num
    simp only [additionDouble, pasDouble, log_deux_d_une_horloge_actuelle, arrondiPair,
      hplancher]
    norm_num

theorem additionDouble_mille_et_demi : additionDouble 1000 (1 / 2) = 2001 / 2 := by
  simp [additionDouble, pasDouble, log_deux_de_mille, arrondiPair]
  norm_num

theorem nombreNouvelles_deuxTiers : ⌊aleaDeuxTiers.valeur * 3⌋₊ = 2 := by
  norm_num [aleaDeuxTiers, Nat.floor_eq_iff]

/-! ## Cleaning keeps the records younger than one hour -/

/-- C3, as the code has it: for every store and every current time `maintenant`,
`nettoyerNotifications` keeps exactly the records `r` of the previous store with
`maintenant - r.timestamp < 3600000`, in their previous order: a record is in the new
store if and only if it was in the store and its age is strictly below one hour, so
every record of age one hour or more is absent; the other fields are unchanged. -/
theorem nettoyerNotifications_garde_moins_d_une_heure (self : GestionnaireNotifications)
    (maintenant : Nat) :
    (self.nettoyerNotifications maintenant).notifications
        = self.notifications.filter
            (fun r => decide ((maintenant : Int) - (r.timestamp : Int) < 3600000)) ∧
      (self.nettoyerNotifications maintenant).notifications.Sublist self.notifications ∧
      (∀ r, r ∈ (self.nettoyerNotifications maintenant).notifications ↔
        r ∈ self.notifications ∧ (maintenant : Int) - (r.timestamp : Int) < 3600000) ∧
      (∀ r, 3600000 ≤ (maintenant : Int) - (r.timestamp : Int) →
        r ∉ (self.nettoyerNotifications maintenant).notifications) ∧
      (self.nettoyerNotifications maintenant).intervalles = self.intervalles ∧
      (self.nettoyerNotifications maintenant).actif = self.actif := by
  have huneHeure : uneHeure = 3600000 := by decide
  refine ⟨?_, ?_, ?_, ?_, rfl, rfl⟩
  · simp [GestionnaireNotifications.nettoyerNotifications, huneHeure]
  · exact List.filter_sublist _
  · intro r
    simp [GestionnaireNotifications.nettoyerNotifications, huneHeure]
  · intro r hr
    simp only [GestionnaireNotifications.nettoyerNotifications, huneHeure, List.mem_filter,
      decide_eq_true_eq, not_and, not_lt]
    intro _
    exact hr

/-- Witness of C3 as amended: at time 3600000 a record stamped 0 has age one hour and
cannot be in the cleaned store. -/
theorem nettoyerNotifications_garde_moins_d_une_heure_temoin :
    3600000 ≤ ((3600000 : Nat) : Int) - ((0 : Nat) : Int) ∧
      ({ id := 0, message := "Notification 1", timestamp := 0 } : Notification) ∉
        (GestionnaireNotifications.nettoyerNotifications 3600000
          { notifications := [{ id := 0, message := "Notification 1", timestamp := 0 }],
            intervalles := [], actif := true }).notifications :=
  ⟨by decide,
    (nettoyerNotifications_garde_moins_d_une_heure
      { notifications := [{ id := 0, message := "Notification 1", timestamp := 0 }],
        intervalles := [], actif := true } 3600000).2.2.2.1
      { id := 0, message := "Notification 1", timestamp := 0 } (by decide)⟩

/-- Counterexample to C3 as stated: at time 3600000 the record stamped 0 has an age of
exactly one hour, which is within the window (`≤`), yet cleaning removes it. -/
theorem nettoyerNotifications_retire_age_une_heure :
    ((3600000 : Nat) : Int) - ((0 : Nat) : Int) ≤ uneHeure ∧
      ({ id := 0, message := "Notification 1", timestamp := 0 } : Notification) ∈
        ({ notifications := [{ id := 0, message := "Notification 1", timestamp := 0 }],
           intervalles := [], actif := true } : GestionnaireNotifications).notifications ∧
      (GestionnaireNotifications.nettoyerNotifications 3600000
          { notifications := [{ id := 0, message := "Notification 1", timestamp := 0 }],
            intervalles := [], actif := true }).notifications = [] := by
  refine ⟨by decide, by simp, ?_⟩
  simp [GestionnaireNotifications.nettoyerNotifications, uneHeure]

/-! ## `demarrer` on a running manager, `arreter` -/

/-- C8: in every state in which `actif` is true, `demarrer` changes nothing: the
store, the map of handles and the flag are those of before, and so is the timer table
of the runtime, so no generation pass has run and no periodic timer was created. -/
theorem demarrer_sans_effet_si_actif (s : Systeme) (aleaNombre : Alea)
    (tirages : Nat → Tirage) (hactif : s.gestionnaire.actif = true) :
    s.demarrer aleaNombre tirages = s ∧
      (s.demarrer aleaNombre tirages).gestionnaire.notifications
        = s.gestionnaire.notifications ∧
      (s.demarrer aleaNombre tirages).gestionnaire.intervalles
        = s.gestionnaire.intervalles ∧
      (s.demarrer aleaNombre tirages).gestionnaire.actif = true ∧
      (s.demarrer aleaNombre tirages).minuteries = s.minuteries := by
  have h : s.demarrer aleaNombre tirages = s := by
    simp [Systeme.demarrer, hactif]
  rw [h]
  exact ⟨rfl, rfl, rfl, hactif, rfl⟩

/-- C9: in every state, `arreter` sets `actif` to false, empties the map of handles and
leaves the store as it was; in the runtime the live timers afterwards are exactly the
previously live timers whose handle was not stored in the map, so every stored handle
is cancelled and no other timer is touched. -/
theorem arreter_annule_et_garde_le_stock (s : Systeme) :
    s.arreter.gestionnaire.actif = false ∧
      s.arreter.gestionnaire.intervalles = [] ∧
      s.arreter.gestionnaire.notifications = s.gestionnaire.notifications ∧
      s.arreter.gestionnaire.obtenirNotifications = s.gestionnaire.obtenirNotifications ∧
      s.arreter.minuteries.actives
        = s.minuteries.actives.filter
            (fun t => !(s.gestionnaire.intervalles.map (fun p => p.2)).contains t.poignee) ∧
      (∀ p, p ∈ s.gestionnaire.intervalles →
        ∀ t, t ∈ s.arreter.minuteries.actives → t.poignee ≠ p.2) := by
  have hmin : s.arreter.minuteries.actives
      = s.minuteries.actives.filter
          (fun t => !(s.gestionnaire.intervalles.map (fun p => p.2)).contains t.poignee) := by
    simp only [Systeme.arreter]
    rw [clearInterval_foldl]
  refine ⟨rfl, rfl, rfl, rfl, hmin, ?_⟩
  intro p hp t ht heq
  rw [hmin, List.mem_filter] at ht
  have hmem : t.poignee ∈ s.gestionnaire.intervalles.map (fun p => p.2) :=
    List.mem_map.mpr ⟨p, hp, heq.symm⟩
  simp [hmem] at ht

/-- Witness of C8: the manager started once is running, and starting it again changes
nothing. -/
theorem demarrer_sans_effet_si_actif_temoin :
    (Systeme.initial.demarrer aleaDeuxTiers tiragesCroissants).gestionnaire.actif = true ∧
      ((Systeme.initial.demarrer aleaDeuxTiers tiragesCroissants).demarrer aleaDemi
          tiragesConstants = Systeme.initial.demarrer aleaDeuxTiers tiragesCroissants ∧
        ((Systeme.initial.demarrer aleaDeuxTiers tiragesCroissants).demarrer aleaDemi
            tiragesConstants).gestionnaire.notifications
          = (Systeme.initial.demarrer aleaDeuxTiers tiragesCroissants).gestionnaire.notifications ∧
        ((Systeme.initial.demarrer aleaDeuxTiers tiragesCroissants).demarrer aleaDemi
            tiragesConstants).gestionnaire.intervalles
          = (Systeme.initial.demarrer aleaDeuxTiers tiragesCroissants).gestionnaire.intervalles ∧
        ((Systeme.initial.demarrer aleaDeuxTiers tiragesCroissants).demarrer aleaDemi
            tiragesConstants).gestionnaire.actif = true ∧
        ((Systeme.initial.demarrer aleaDeuxTiers tiragesCroissants).demarrer aleaDemi
            tiragesConstants).minuteries
          = (Systeme.initial.demarrer aleaDeuxTiers tiragesCroissants).minuteries) :=
  have hactif :
      (Systeme.initial.demarrer aleaDeuxTiers tiragesCroissants).gestionnaire.actif = true := by
    simp [Systeme.demarrer, Systeme.initial, GestionnaireNotifications.nouveau,
      GestionnaireNotifications.verifierNotifications]
  ⟨hactif,
    demarrer_sans_effet_si_actif (Systeme.initial.demarrer aleaDeuxTiers tiragesCroissants)
      aleaDemi tiragesConstants hactif⟩

/-! ## Generation passes and the length of the store -/

/-- C10: for every state with `actif` false, `verifierNotifications` leaves the whole
state, hence the store, unchanged whatever the draws; for every state with `actif`
true it keeps the previous records as a prefix of the new store and appends
`Math.floor(Math.random() * 3)` records, between 0 and 2.  So the length of
`obtenirNotifications` never decreases across a generation pass, and after `arreter`
any number of generation passes leaves `obtenirNotifications` as it was. -/
theorem verifierNotifications_longueur_du_stock (self : GestionnaireNotifications)
    (aleaNombre : Alea) (tirages : Nat → Tirage) (s : Systeme)
    (passes : List (Alea × (Nat → Tirage))) :
    (self.actif = false → self.verifierNotifications aleaNombre tirages = self) ∧
      (self.actif = true →
        ∃ nouvelles,
          (self.verifierNotifications aleaNombre tirages).notifications
              = self.notifications ++ nouvelles ∧
            nouvelles.length = ⌊aleaNombre.valeur * 3⌋₊ ∧ nouvelles.length ≤ 2) ∧
      self.notifications <+: (self.verifierNotifications aleaNombre tirages).notifications ∧
      self.obtenirNotifications.length
        ≤ (self.verifierNotifications aleaNombre tirages).obtenirNotifications.length ∧
      (passes.foldl (fun s p => s.verifierNotifications p.1 p.2)
          s.arreter).gestionnaire.obtenirNotifications
        = s.gestionnaire.obtenirNotifications := by
  have hprefixe :
      self.notifications <+: (self.verifierNotifications aleaNombre tirages).notifications := by
    cases h : self.actif with
    | false =>
      rw [GestionnaireNotifications.verifierNotifications_inactif self aleaNombre tirages h]
    | true =>
      obtain ⟨nouvelles, h1, _⟩ :=
        GestionnaireNotifications.verifierNotifications_actif self aleaNombre tirages h
      exact ⟨nouvelles, h1.symm⟩
  refine ⟨GestionnaireNotifications.verifierNotifications_inactif self aleaNombre tirages,
    ?_, hprefixe, hprefixe.length_le, ?_⟩
  · intro h
    obtain ⟨nouvelles, h1, h2, _⟩ :=
      GestionnaireNotifications.verifierNotifications_actif self aleaNombre tirages h
    exact ⟨nouvelles, h1, h2, h2 ▸ nombreNouvelles_le_deux aleaNombre⟩
  · rw [Systeme.verifierNotifications_apres_arret passes s.arreter rfl]
    rfl

/-- Witness of C10: a stopped manager ignores a pass that would draw two records, and
a running manager with an empty store gains a suffix of at most two records. -/
theorem verifierNotifications_longueur_du_stock_temoin :
    (GestionnaireNotifications.nouveau.actif = false ∧
      GestionnaireNotifications.nouveau.verifierNotifications aleaDeuxTiers tiragesCroissants
        = GestionnaireNotifications.nouveau) ∧
    (({ notifications := [], intervalles := [], actif := true } :
        GestionnaireNotifications).actif = true ∧
      ∃ nouvelles,
        (GestionnaireNotifications.verifierNotifications aleaDeuxTiers tiragesCroissants
            { notifications := [], intervalles := [], actif := true }).notifications
            = ({ notifications := [], intervalles := [], actif := true } :
                GestionnaireNotifications).notifications ++ nouvelles ∧
          nouvelles.length = ⌊aleaDeuxTiers.valeur * 3⌋₊ ∧ nouvelles.length ≤ 2) :=
  ⟨⟨rfl, (verifierNotifications_longueur_du_stock GestionnaireNotifications.nouveau
      aleaDeuxTiers tiragesCroissants Systeme.initial []).1 rfl⟩,
    ⟨rfl, (verifierNotifications_longueur_du_stock
      { notifications := [], intervalles := [], actif := true }
      aleaDeuxTiers tiragesCroissants Systeme.initial []).2.1 rfl⟩⟩

/-! ## Ids of the records -/

/-- C4, as the code has it: in every state reached from a freshly constructed manager
by a sequence of `demarrer`, `arreter`, `verifierNotifications` and
`nettoyerNotifications` calls, no two records of the store have the same id, provided
that for any two ids computed along the sequence the exact sums of their operands
`Date.now()` and `Math.random()` differ by more than the spacing of the doubles around
either clock reading (which is `2 ^ (-12)` ms for a clock reading of today). -/
theorem ids_distincts_si_sommes_ecartees (actions : List Action)
    (hecart : (operandesDesIds actions Systeme.initial).Pairwise SommesEcartees) :
    (identifiants (Systeme.apres actions).gestionnaire.notifications).Nodup :=
  operandesEcartees_sansDoublon actions Systeme.initial [] List.nodup_nil
    (fun _ hid => absurd hid (List.not_mem_nil _)) (by simpa using hecart)

/-- Counterexample to C4 as stated: a single `demarrer` whose pass draws two records
while the clock shows 1000 and `Math.random()` returns 0.5 both times leaves two
records with the id 1000.5 in the store. -/
theorem ids_en_double_apres_demarrer :
    (Systeme.apres [Action.demarrer aleaDeuxTiers tiragesConstants]).gestionnaire.notifications
        = [{ id := 2001 / 2, message := "Notification 1", timestamp := 1000 },
           { id := 2001 / 2, message := "Notification 3", timestamp := 1000 }] ∧
      ¬ (identifiants (Systeme.apres
          [Action.demarrer aleaDeuxTiers tiragesConstants]).gestionnaire.notifications).Nodup := by
  have hstock :
      (Systeme.apres [Action.demarrer aleaDeuxTiers tiragesConstants]).gestionnaire.notifications
        = [{ id := 2001 / 2, message := "Notification 1", timestamp := 1000 },
           { id := 2001 / 2, message := "Notification 3", timestamp := 1000 }] := by
    simp only [Systeme.apres, Systeme.executerTout, List.foldl_cons, List.foldl_nil,
      Action.executer, Systeme.demarrer, Systeme.initial, GestionnaireNotifications.nouveau,
      GestionnaireNotifications.verifierNotifications, nombreNouvelles_deuxTiers]
    have hid : additionDouble 1000 2⁻¹ = 2001 / 2 := by
      simpa using additionDouble_mille_et_demi
    simp [GestionnaireNotifications.verifierNotifications.boucle, tiragesConstants, aleaDemi,
      hid]
    decide
  rw [hstock]
  simp [identifiants]

/-- Witness of C4 as amended: a pass that draws two records in the same millisecond
1000 with the draws 0.25 and 0.75 has exact sums half a millisecond apart, more than
the spacing of the doubles around 1000, and the store keeps distinct ids through the
cleaning and the stop that follow. -/
theorem ids_distincts_si_sommes_ecartees_temoin :
    (operandesDesIds [Action.demarrer aleaDeuxTiers tiragesMemeInstant,
        Action.nettoyerNotifications 5000, Action.arreter] Systeme.initial).Pairwise
          SommesEcartees ∧
      (identifiants (Systeme.apres [Action.demarrer aleaDeuxTiers tiragesMemeInstant,
        Action.nettoyerNotifications 5000, Action.arreter]).gestionnaire.notifications).Nodup :=
  have hecart : (operandesDesIds [Action.demarrer aleaDeuxTiers tiragesMemeInstant,
      Action.nettoyerNotifications 5000, Action.arreter] Systeme.initial).Pairwise
        SommesEcartees := by
    simp [operandesDesIds, Action.operandes, Systeme.initial,
      GestionnaireNotifications.nouveau, operandesDUnePasse, nombreNouvelles_deuxTiers,
      List.range_succ, tiragesMemeInstant, aleaQuart, aleaTroisQuarts, SommesEcartees,
      pasDouble, log_deux_de_mille]
    have habs : |(4⁻¹ - 3 / 4 : ℚ)| = 1 / 2 := by
      rw [abs_of_neg (by norm_num)]
      norm_num
    rw [habs]
    norm_num
  ⟨hecart, ids_distincts_si_sommes_ecartees _ hecart⟩

/-! ## Races -/

theorem prefixes_des_services_distincts (donnees : String) :
    "Service rapide: " ++ donnees ≠ "Service lent: " ++ donnees := by
  intro h
  have h2 := congrArg String.data h
  simp [String.data_append] at h2

/-- C5, as the code has it: for every promise that settles after `d` ms with some
outcome and every timeout `t` that the timer honours, `1 ≤ t ≤ 2147483647`: if `d > t`,
`avecTimeout` rejects at `t` with the error 'Timeout dépassé'; if `d < t`,
`avecTimeout` settles at `d` with the outcome of the promise, value or error.  And
`serviceAvecTimeout`, whose operation takes 1000 ms, rejects with 'Timeout dépassé' at
500 ms when `timeoutMs` is omitted. -/
theorem avecTimeout_selon_le_delai {α : Type} (d t : Nat) (issue : Issue α)
    (donnees : String) (ht1 : 1 ≤ t) (ht2 : t ≤ 2147483647) :
    (t < d →
      avecTimeout (.reglee d issue) t
        = .reglee t (.rejetee { message := "Timeout dépassé" })) ∧
    (d < t → avecTimeout (.reglee d issue) t = .reglee d issue) ∧
    ServicesConcurrents.serviceAvecTimeout donnees none
      = .reglee 500 (.rejetee { message := "Timeout dépassé" }) := by
  have hdelai : delaiMinuterie t = t := by
    simp [delaiMinuterie, TIMEOUT_MAX, ht1, ht2]
  refine ⟨?_, ?_, ?_⟩
  · intro h
    have hn : ¬ d ≤ t := by omega
    simp [avecTimeout, Promesse.race, Promesse.premiere, Promesse.rejetApres, hdelai, hn]
  · intro h
    have hle : d ≤ t := by omega
    simp [avecTimeout, Promesse.race, Promesse.premiere, Promesse.rejetApres, hdelai, hle]
  · simp [ServicesConcurrents.serviceAvecTimeout, ServicesConcurrents.serviceLent,
      Promesse.delai, Promesse.puis, Promesse.race, Promesse.premiere, Promesse.rejetApres,
      delaiMinuterie, TIMEOUT_MAX]

/-- Witness of C5 as amended: under a timeout of 100 ms a promise that takes 200 ms
times out, and one that takes 50 ms gives its own result, whether a value or an
error. -/
theorem avecTimeout_selon_le_delai_temoin :
    (1 ≤ 100 ∧ 100 ≤ 2147483647) ∧
    (100 < 200 ∧
      avecTimeout (.reglee 200 (.resolue "fait")) 100
        = .reglee 100 (.rejetee { message := "Timeout dépassé" })) ∧
    (50 < 100 ∧
      avecTimeout (.reglee 50 (.resolue "fait")) 100 = .reglee 50 (.resolue "fait")) ∧
    (50 < 100 ∧
      avecTimeout (.reglee 50 (.rejetee { message := "Panne" } : Issue String)) 100
        = .reglee 50 (.rejetee { message := "Panne" })) :=
  ⟨⟨by decide, by decide⟩,
    ⟨by decide,
      (avecTimeout_selon_le_delai 200 100 (.resolue "fait") "" (by decide) (by decide)).1
        (by decide)⟩,
    ⟨by decide,
      (avecTimeout_selon_le_delai 50 100 (.resolue "fait") "" (by decide) (by decide)).2.1
        (by decide)⟩,
    ⟨by decide,
      (avecTimeout_selon_le_delai 50 100 (.rejetee { message := "Panne" } : Issue String)
        "" (by decide) (by decide)).2.1 (by decide)⟩⟩

/-- Counterexample to C5 as stated: a promise of 50 ms under a timeout of 2147483648 ms
has `d < t`, yet the timer fires after 1 ms and `avecTimeout` rejects with
'Timeout dépassé'; and a promise of 1 ms under a timeout of 0 ms has `d > t`, yet the
timer fires after 1 ms, not before the promise, and `avecTimeout` resolves with the
value of the promise. -/
theorem avecTimeout_hors_des_delais_honores :
    (50 < 2147483648 ∧
      avecTimeout (.reglee 50 (.resolue "fait")) 2147483648
        = .reglee 1 (.rejetee { message := "Timeout dépassé" })) ∧
    (0 < 1 ∧ avecTimeout (.reglee 1 (.resolue "fait")) 0 = .reglee 1 (.resolue "fait")) := by
  refine ⟨⟨by decide, ?_⟩, ⟨by decide, ?_⟩⟩
  · simp [avecTimeout, Promesse.race, Promesse.premiere, Promesse.rejetApres, delaiMinuterie,
      TIMEOUT_MAX]
  · simp [avecTimeout, Promesse.race, Promesse.premiere, Promesse.rejetApres, delaiMinuterie,
      TIMEOUT_MAX]

/-- C6: for every input `donnees`, `meilleurService` settles at 200 ms with the result
'Service rapide: <donnees>' of the fast service and at no instant with the result of
the slow service, and listing the fast service first gives the same promise.  More
generally, of two promises that settle at the instants `d₁ < d₂`, `Promise.race`
settles as the one of `d₁` in both listing orders. -/
theorem meilleurService_resout_avec_le_rapide (donnees : String) {α : Type} (d₁ d₂ : Nat)
    (issue₁ issue₂ : Issue α) :
    ServicesConcurrents.meilleurService donnees
        = .reglee 200 (.resolue ("Service rapide: " ++ donnees)) ∧
      (∀ instant, ServicesConcurrents.meilleurService donnees
        ≠ .reglee instant (.resolue ("Service lent: " ++ donnees))) ∧
      Promesse.race [ServicesConcurrents.serviceRapide donnees,
          ServicesConcurrents.serviceLent donnees]
        = ServicesConcurrents.meilleurService donnees ∧
      (d₁ < d₂ →
        Promesse.race [.reglee d₁ issue₁, .reglee d₂ issue₂] = .reglee d₁ issue₁ ∧
          Promesse.race [.reglee d₂ issue₂, .reglee d₁ issue₁] = .reglee d₁ issue₁) := by
  have hmeilleur : ServicesConcurrents.meilleurService donnees
      = .reglee 200 (.resolue ("Service rapide: " ++ donnees)) := by
    simp [ServicesConcurrents.meilleurService, ServicesConcurrents.serviceLent,
      ServicesConcurrents.serviceRapide, Promesse.delai, Promesse.puis, Promesse.race,
      Promesse.premiere, delaiMinuterie, TIMEOUT_MAX]
  refine ⟨hmeilleur, ?_, ?_, ?_⟩
  · intro instant h
    rw [hmeilleur] at h
    injection h with _ h2
    injection h2 with h3
    exact prefixes_des_services_distincts donnees h3
  · rw [hmeilleur]
    simp [ServicesConcurrents.serviceLent, ServicesConcurrents.serviceRapide, Promesse.delai,
      Promesse.puis, Promesse.race, Promesse.premiere, delaiMinuterie, TIMEOUT_MAX]
  · intro h
    have hle : d₁ ≤ d₂ := by omega
    have hn : ¬ d₂ ≤ d₁ := by omega
    simp [Promesse.race, Promesse.premiere, hle, hn]

/-- Witness of C6 on the race of a promise of 50 ms against one of 500 ms. -/
theorem meilleurService_resout_avec_le_rapide_temoin :
    50 < 500 ∧
      (Promesse.race [.reglee 50 (.resolue "A"), .reglee 500 (.resolue "B")]
          = .reglee 50 (.resolue "A") ∧
        Promesse.race [.reglee 500 (.resolue "B"), .reglee 50 (.resolue "A")]
          = .reglee 50 (.resolue "A")) :=
  ⟨by decide,
    (meilleurService_resout_avec_le_rapide "commande" 50 500 (.resolue "A")
      (.resolue "B")).2.2.2 (by decide)⟩

/-! ## The two retry executors agree -/

theorem boucles_de_retry_equivalentes {σ α : Type} (operation : Operation σ α)
    (maxTentatives delaiMs delai : Nat) :
    ∀ (j tentative : Nat) (derniereErreur : Option Erreur) (etat : σ),
      maxTentatives + 1 - tentative = j →
      (ServiceAvecRetry.boucle operation maxTentatives delaiMs tentative derniereErreur
          etat).issue
          = (retryAvecDelai.boucle operation maxTentatives delai tentative derniereErreur
              etat).issue ∧
        (ServiceAvecRetry.boucle operation maxTentatives delaiMs tentative derniereErreur
          etat).etat
          = (retryAvecDelai.boucle operation maxTentatives delai tentative derniereErreur
              etat).etat ∧
        nombreAppels (ServiceAvecRetry.boucle operation maxTentatives delaiMs tentative
          derniereErreur etat).journal
          = nombreAppels (retryAvecDelai.boucle operation maxTentatives delai tentative
              derniereErreur etat).journal ∧
        nombreAttentes (ServiceAvecRetry.boucle operation maxTentatives delaiMs tentative
          derniereErreur etat).journal
          = nombreAttentes (retryAvecDelai.boucle operation maxTentatives delai tentative
              derniereErreur etat).journal ∧
        (delaiMs = delai →
          sansConsole (ServiceAvecRetry.boucle operation maxTentatives delaiMs tentative
            derniereErreur etat).journal
            = (retryAvecDelai.boucle operation maxTentatives delai tentative derniereErreur
                etat).journal) := by
  intro j
  induction j with
  | zero =>
    intro tentative derniereErreur etat hj
    rw [avecRetry_boucle_fin operation maxTentatives delaiMs tentative derniereErreur etat
        (by omega),
      retryAvecDelai_boucle_fin operation maxTentatives delai tentative derniereErreur etat
        (by omega)]
    simp
  | succ j ih =>
    intro tentative derniereErreur etat hj
    have hle : tentative ≤ maxTentatives := by omega
    rcases hres : (operation etat).1 with e | v
    · have hop := paire_de_premiere (operation etat) (.error e) hres
      obtain ⟨h1, h2, h3, h4, h5⟩ := ih (tentative + 1) (some e) (operation etat).2 (by omega)
      rw [avecRetry_boucle_echec operation maxTentatives delaiMs tentative derniereErreur
          etat _ e hle hop,
        retryAvecDelai_boucle_echec operation maxTentatives delai tentative derniereErreur
          etat _ e hle hop]
      refine ⟨h1, h2, ?_, ?_, ?_⟩
      · by_cases hlt : tentative < maxTentatives <;> simp [hlt, h3]
      · by_cases hlt : tentative < maxTentatives <;> simp [hlt, h4]
      · intro hd
        have h6 := h5 hd
        subst hd
        by_cases hlt : tentative < maxTentatives <;> simp [hlt, h6]
    · have hop := paire_de_premiere (operation etat) (.ok v) hres
      rw [avecRetry_boucle_succes operation maxTentatives delaiMs tentative derniereErreur
          etat _ v hle hop,
        retryAvecDelai_boucle_succes operation maxTentatives delai tentative derniereErreur
          etat _ v hle hop]
      simp

/-- C11: `avecRetry` and `retryAvecDelai` are observationally equivalent.  For every
operation (whose failures carry a message), every closure state, every
`maxTentatives` and all delays, given or omitted, both make the same number of
calls of the operation, wait the same number of times, settle with the same outcome
(the same value, or an error with the same message) and leave the operation in the
same closure state.  Given the same delay `d`, the calls and waits of `avecRetry`,
its `console.log` lines set aside, are exactly the calls and waits of
`retryAvecDelai`, in the same order. -/
theorem avecRetry_equivaut_a_retryAvecDelai {σ α : Type} (operation : Operation σ α)
    (etat : σ) (maxTentatives delaiMs delai : Option Nat) (d : Nat) :
    nombreAppels (ServiceAvecRetry.avecRetry operation maxTentatives delaiMs etat).journal
        = nombreAppels (retryAvecDelai operation maxTentatives delai etat).journal ∧
      nombreAttentes (ServiceAvecRetry.avecRetry operation maxTentatives delaiMs etat).journal
        = nombreAttentes (retryAvecDelai operation maxTentatives delai etat).journal ∧
      (ServiceAvecRetry.avecRetry operation maxTentatives delaiMs etat).issue
        = (retryAvecDelai operation maxTentatives delai etat).issue ∧
      (ServiceAvecRetry.avecRetry operation maxTentatives delaiMs etat).etat
        = (retryAvecDelai operation maxTentatives delai etat).etat ∧
      sansConsole (ServiceAvecRetry.avecRetry operation maxTentatives (some d) etat).journal
        = (retryAvecDelai operation maxTentatives (some d) etat).journal := by
  obtain ⟨h1, h2, h3, h4, _⟩ :=
    boucles_de_retry_equivalentes operation (maxTentatives.getD 3) (delaiMs.getD 50)
      (delai.getD 1000) _ 1 none etat rfl
  obtain ⟨_, _, _, _, h5⟩ :=
    boucles_de_retry_equivalentes operation (maxTentatives.getD 3) d d _ 1 none etat rfl
  exact ⟨h3, h4, h1, h2, h5 rfl⟩

end AsyncCours
